import Mathlib

/-!
Verification of the boomnet websocket client library: a shallow embedding of
the frame codec (`src/ws/encoder.rs`, `src/ws/decoder.rs`), the websocket
state machine (`src/ws/mod.rs`), the read buffer (`src/buffer.rs`) and the
I/O service admission/throttle logic (`src/service/mod.rs`), together with
theorems about the behaviour of these definitions.

Machine integers are modelled as `Nat` (all byte values are < 256 where they
originate from the wire; `u64`/`usize` arithmetic never overflows in the
modelled paths).  Fallible operations return explicit result types; Rust
panics (`unwrap`, out-of-bounds `split_at`) are modelled by a dedicated
`panicked` constructor so that the difference between a typed error and an
unwind is visible in the model.
-/

namespace Boomnet

/-! ## Protocol constants (`src/ws/protocol.rs`) -/

def FIN_MASK : Nat := 0x80
def RSV1_MASK : Nat := 0x40
def RSV2_MASK : Nat := 0x20
def RSV3_MASK : Nat := 0x10
def OP_CODE_MASK : Nat := 0x0F
def MASK_MASK : Nat := 0x80
def PAYLOAD_LENGTH_MASK : Nat := 0x7F

/-- `u64::MAX` as a natural number. -/
def U64_MAX : Nat := 2 ^ 64 - 1

namespace op

def CONTINUATION_FRAME : Nat := 0x0
def TEXT_FRAME : Nat := 0x1
def BINARY_FRAME : Nat := 0x2
def CONNECTION_CLOSE : Nat := 0x8
def PING : Nat := 0x9
def PONG : Nat := 0xA

end op

/-! ## Big-endian byte serialisation

`beBytes w n` is `n.to_be_bytes()` for a `w`-byte unsigned integer
(the low `8*w` bits of `n`, most significant byte first).
`fromBeBytes` is `uNN::from_be_bytes`. -/

def beBytes : Nat → Nat → List Nat
  | 0, _ => []
  | w + 1, n => (n / 256 ^ w) % 256 :: beBytes w n

def fromBeBytes (l : List Nat) : Nat :=
  l.foldl (fun acc b => acc * 256 + b) 0

theorem beBytes_length (w n : Nat) : (beBytes w n).length = w := by
  induction w generalizing n with
  | zero => rfl
  | succ w ih => simp [beBytes, ih]

theorem fromBeBytes_cons (b : Nat) (l : List Nat) :
    fromBeBytes (b :: l) = b * 256 ^ l.length + fromBeBytes l := by
  have aux : ∀ (l : List Nat) (acc : Nat),
      l.foldl (fun acc b => acc * 256 + b) acc =
        acc * 256 ^ l.length + l.foldl (fun acc b => acc * 256 + b) 0 := by
    intro l
    induction l with
    | nil => intro acc; simp
    | cons x xs ih =>
      intro acc
      simp only [List.foldl_cons, List.length_cons]
      rw [ih (acc * 256 + x), ih (0 * 256 + x)]
      ring
  simp only [fromBeBytes, List.foldl_cons]
  rw [aux l (0 * 256 + b)]
  simp [fromBeBytes]

theorem fromBeBytes_beBytes_mod (w n : Nat) :
    fromBeBytes (beBytes w n) = n % 256 ^ w := by
  induction w generalizing n with
  | zero => simp [beBytes, fromBeBytes, Nat.mod_one]
  | succ w ih =>
    rw [beBytes, fromBeBytes_cons, beBytes_length, ih]
    have hp : (256 : Nat) ^ (w + 1) = 256 ^ w * 256 := by ring
    rw [hp, Nat.mod_mul]
    ring

theorem fromBeBytes_beBytes (w n : Nat) (h : n < 256 ^ w) :
    fromBeBytes (beBytes w n) = n := by
  rw [fromBeBytes_beBytes_mod, Nat.mod_eq_of_lt h]

/-! ## Write side of a stream

The encoder (`src/ws/encoder.rs`) is generic over `S: Write`.  A stream is
modelled by the list of bytes written to it so far plus a budget of write
operations that will still succeed (`none` = writes never fail).  `write_all`
either appends all bytes or fails leaving the model unchanged. -/

structure WriteStream where
  written : List Nat
  budget : Option Nat
deriving DecidableEq

def write_all (s : WriteStream) (bytes : List Nat) : Option WriteStream :=
  match s.budget with
  | none => some { s with written := s.written ++ bytes }
  | some 0 => none
  | some (k + 1) => some { written := s.written ++ bytes, budget := some k }

/-- `Write::flush`; modelled like a write operation that transfers no bytes. -/
def flushStream (s : WriteStream) : Option WriteStream :=
  write_all s []

/-- Outcome of `encoder::send`.  `panicked` models a Rust panic: the source
unwraps the result of writing the masking key (`encoder.rs` line 33), so an
I/O error at that exact write unwinds instead of returning `Err`. -/
inductive SendResult where
  | ok (s : WriteStream)
  | ioError (s : WriteStream)
  | panicked (s : WriteStream)
deriving DecidableEq

/-- `encoder::send` (`src/ws/encoder.rs` lines 5-41), statement for
statement: FIN+opcode header byte, masked length byte with optional 2- or
8-byte big-endian extension, the all-zero 4-byte masking key (written with
`.unwrap()`), then the unmasked payload, then `flush`. -/
def send (stream : WriteStream) (fin : Bool) (op_code : Nat) (body : Option (List Nat)) : SendResult :=
  let header := (if fin then FIN_MASK else 0) ||| op_code
  match write_all stream [header] with
  | none => .ioError stream
  | some s1 =>
    let payload_length := MASK_MASK
    let afterLen : Option WriteStream :=
      match body with
      | some b =>
        if b.length ≤ 125 then
          write_all s1 [payload_length ||| b.length]
        else if b.length ≤ 65535 then
          match write_all s1 [payload_length ||| 126] with
          | none => none
          | some s => write_all s (beBytes 2 b.length)
        else if b.length ≤ U64_MAX then
          match write_all s1 [payload_length ||| 127] with
          | none => none
          | some s => write_all s (beBytes 8 b.length)
        else
          -- unreachable in the source: `usize` values always fit in `u64`
          some s1
      | none => write_all s1 [payload_length]
    match afterLen with
    | none => .ioError s1
    | some s2 =>
      match write_all s2 (beBytes 4 0) with
      | none => .panicked s2
      | some s3 =>
        let afterBody : Option WriteStream :=
          match body with
          | some b => write_all s3 b
          | none => some s3
        match afterBody with
        | none => .ioError s3
        | some s4 =>
          match flushStream s4 with
          | none => .ioError s4
          | some s5 => .ok s5

/-- The full wire image of one client frame as written by `send`. -/
def frameBytes (fin : Bool) (op_code : Nat) (body : Option (List Nat)) : List Nat :=
  let header := (if fin then FIN_MASK else 0) ||| op_code
  let lenBytes : List Nat :=
    match body with
    | some b =>
      if b.length ≤ 125 then [MASK_MASK ||| b.length]
      else if b.length ≤ 65535 then (MASK_MASK ||| 126) :: beBytes 2 b.length
      else if b.length ≤ U64_MAX then (MASK_MASK ||| 127) :: beBytes 8 b.length
      else []
    | none => [MASK_MASK]
  header :: lenBytes ++ beBytes 4 0 ++ (body.getD [])

/-- On a stream whose writes never fail, `send` succeeds and appends exactly
the bytes of one frame. -/
theorem send_budget_none (w : List Nat) (fin : Bool) (op_code : Nat) (body : Option (List Nat)) :
    send ⟨w, none⟩ fin op_code body = .ok ⟨w ++ frameBytes fin op_code body, none⟩ := by
  cases body with
  | none => simp [send, frameBytes, write_all, flushStream]
  | some b =>
    by_cases h1 : b.length ≤ 125
    · simp [send, frameBytes, write_all, flushStream, h1]
    · by_cases h2 : b.length ≤ 65535
      · simp [send, frameBytes, write_all, flushStream, h1, h2]
      · by_cases h3 : b.length ≤ U64_MAX
        · simp [send, frameBytes, write_all, flushStream, h1, h2, h3]
        · simp [send, frameBytes, write_all, flushStream, h1, h2, h3]

/-! ## Websocket frames and errors (`src/ws/mod.rs`, `src/ws/error.rs`)

Payload slices are zero-copy views in the source; here they are the
corresponding byte lists.  The `reason` of `ReceivedCloseFrame` is kept as
the raw byte list (the source converts it with `String::from_utf8_lossy`). -/

inductive WebsocketFrame where
  | Ping (payload : List Nat)
  | Pong (payload : List Nat)
  | Text (fin : Bool) (payload : List Nat)
  | Binary (fin : Bool) (payload : List Nat)
  | Continuation (fin : Bool) (payload : List Nat)
  | Close (payload : List Nat)
deriving DecidableEq

inductive WsError where
  | ReceivedCloseFrame (statusCode : Nat) (reason : List Nat)
  | Protocol (msg : String)
  | Closed
  | ioErr
  | SliceError
deriving DecidableEq

instance {e a : Type} [DecidableEq e] [DecidableEq a] : DecidableEq (Except e a) := fun x y =>
  match x, y with
  | .ok v, .ok w =>
    if h : v = w then isTrue (by rw [h]) else isFalse (by intro hc; injection hc; exact h ‹_›)
  | .ok _, .error _ => isFalse (fun hc => Except.noConfusion hc)
  | .error _, .ok _ => isFalse (fun hc => Except.noConfusion hc)
  | .error v, .error w =>
    if h : v = w then isTrue (by rw [h]) else isFalse (by intro hc; injection hc; exact h ‹_›)

/-! ## Frame decoder (`src/ws/decoder.rs`)

The decoder's `ReadBuffer` is represented by its readable view: the list of
bytes between `head` and `tail`.  `consume_next_byte_unchecked` is taking the
head of that list, `consume_next_unchecked n` is `take n`/`drop n`.  The
`decode_next` loop visits the states in order (each iteration either
consumes input and moves to the next state, breaks to await more data, or
returns a frame), so it is written as a chain of step functions, one per
`DecodeState`. -/

inductive DecodeState where
  | ReadingHeader
  | ReadingPayloadLength
  | ReadingExtendedPayloadLength2
  | ReadingExtendedPayloadLength8
  | ReadingPayload
deriving DecidableEq

structure Decoder where
  buffer : List Nat
  decode_state : DecodeState
  fin : Bool
  payload_length : Nat
  op_code : Nat
  needs_more_data : Bool
deriving DecidableEq

def Decoder.new : Decoder :=
  { buffer := [], decode_state := .ReadingHeader, fin := false,
    op_code := 0, payload_length := 0, needs_more_data := true }

/-- `DecodeState::ReadingPayload` arm of the `decode_next` loop.  On an
unknown opcode the error is returned with the payload already consumed and
the state still `ReadingPayload`, exactly as in the source (the reset to
`ReadingHeader` only happens on the success path). -/
def stepPayload (d : Decoder) : Decoder × Except WsError (Option WebsocketFrame) :=
  if d.buffer.length ≥ d.payload_length then
    let payload := d.buffer.take d.payload_length
    let d' := { d with buffer := d.buffer.drop d.payload_length }
    if d.op_code = op.TEXT_FRAME then
      ({ d' with decode_state := .ReadingHeader }, .ok (some (.Text d.fin payload)))
    else if d.op_code = op.BINARY_FRAME then
      ({ d' with decode_state := .ReadingHeader }, .ok (some (.Binary d.fin payload)))
    else if d.op_code = op.CONTINUATION_FRAME then
      ({ d' with decode_state := .ReadingHeader }, .ok (some (.Continuation d.fin payload)))
    else if d.op_code = op.PING then
      ({ d' with decode_state := .ReadingHeader }, .ok (some (.Ping payload)))
    else if d.op_code = op.CONNECTION_CLOSE then
      ({ d' with decode_state := .ReadingHeader }, .ok (some (.Close payload)))
    else
      (d', .error (.Protocol "unknown op_code"))
  else
    ({ d with needs_more_data := true }, .ok none)

/-- `DecodeState::ReadingExtendedPayloadLength2` arm. -/
def stepExt2 (d : Decoder) : Decoder × Except WsError (Option WebsocketFrame) :=
  if d.buffer.length ≥ 2 then
    stepPayload { d with buffer := d.buffer.drop 2,
                         payload_length := fromBeBytes (d.buffer.take 2),
                         decode_state := .ReadingPayload }
  else
    ({ d with needs_more_data := true }, .ok none)

/-- `DecodeState::ReadingExtendedPayloadLength8` arm. -/
def stepExt8 (d : Decoder) : Decoder × Except WsError (Option WebsocketFrame) :=
  if d.buffer.length ≥ 8 then
    stepPayload { d with buffer := d.buffer.drop 8,
                         payload_length := fromBeBytes (d.buffer.take 8),
                         decode_state := .ReadingPayload }
  else
    ({ d with needs_more_data := true }, .ok none)

/-- `DecodeState::ReadingPayloadLength` arm.  The 7-bit length is stored,
then the state is dispatched on its value (`0..=125`, `126`, `127`). -/
def stepPayloadLength (d : Decoder) : Decoder × Except WsError (Option WebsocketFrame) :=
  match d.buffer with
  | [] => ({ d with needs_more_data := true }, .ok none)
  | b :: rest =>
    let d1 := { d with buffer := rest }
    if (b &&& MASK_MASK) >>> 7 = 1 then
      (d1, .error (.Protocol "masking bit set on the server frame"))
    else
      let payload_length := b &&& PAYLOAD_LENGTH_MASK
      let d2 := { d1 with payload_length := payload_length }
      if payload_length ≤ 125 then
        stepPayload { d2 with decode_state := .ReadingPayload }
      else if payload_length = 126 then
        stepExt2 { d2 with decode_state := .ReadingExtendedPayloadLength2 }
      else
        stepExt8 { d2 with decode_state := .ReadingExtendedPayloadLength8 }

/-- `DecodeState::ReadingHeader` arm. -/
def stepHeader (d : Decoder) : Decoder × Except WsError (Option WebsocketFrame) :=
  match d.buffer with
  | [] => ({ d with needs_more_data := true }, .ok none)
  | b :: rest =>
    let d1 := { d with buffer := rest }
    let fin := (b &&& FIN_MASK) >>> 7 = 1
    let rsv1 := (b &&& RSV1_MASK) >>> 6
    let rsv2 := (b &&& RSV2_MASK) >>> 5
    let rsv3 := (b &&& RSV3_MASK) >>> 4
    if rsv1 + rsv2 + rsv3 ≠ 0 then
      (d1, .error (.Protocol "non zero RSV value received"))
    else
      stepPayloadLength { d1 with fin := fin, op_code := b &&& OP_CODE_MASK,
                                  decode_state := .ReadingPayloadLength }

/-- `Decoder::decode_next` (`src/ws/decoder.rs` lines 48-141). -/
def decode_next (d : Decoder) : Decoder × Except WsError (Option WebsocketFrame) :=
  match d.decode_state with
  | .ReadingHeader => stepHeader d
  | .ReadingPayloadLength => stepPayloadLength d
  | .ReadingExtendedPayloadLength2 => stepExt2 d
  | .ReadingExtendedPayloadLength8 => stepExt8 d
  | .ReadingPayload => stepPayload d

/-- A fresh decoder whose buffer already holds `bytes` received from the
server. -/
def freshDecoder (bytes : List Nat) : Decoder :=
  { Decoder.new with buffer := bytes, needs_more_data := false }

/-! ## Websocket state machine (`src/ws/mod.rs`)

Only the established connection state (`State::Connection`) is modelled;
the claims under consideration all concern established connections.  A
websocket owns the write side of its stream (`out`) and the decoder over
the read side.  Rust panics are surfaced as the `panicked` outcome:
`State::next` panics if the Pong/Close echo `send` panics (the `let _ =`
on the Close echo discards the `Result` but cannot absorb an unwind) or if
`payload.split_at(2)` is called on a Close payload shorter than 2 bytes. -/

inductive NextResult where
  | ok (frame : Option WebsocketFrame)
  | error (e : WsError)
  | panicked
deriving DecidableEq

/-- `State::next` for `State::Connection` (`src/ws/mod.rs` lines 313-327):
decode one frame; a Ping triggers an automatic Pong echo and yields
nothing; a Close triggers a best-effort Close echo, parses the payload and
returns `ReceivedCloseFrame`; every other decoded frame is passed through. -/
def connectionNext (decoder : Decoder) (out : WriteStream) :
    Decoder × WriteStream × NextResult :=
  match decode_next decoder with
  | (d, .ok (some (.Ping payload))) =>
    match send out true op.PONG (some payload) with
    | .ok s => (d, s, .ok none)
    | .ioError s => (d, s, .error .ioErr)
    | .panicked s => (d, s, .panicked)
  | (d, .ok (some (.Close payload))) =>
    match send out true op.CONNECTION_CLOSE (some payload) with
    | .panicked s => (d, s, .panicked)
    | .ok s | .ioError s =>
      -- `payload.split_at(size_of::<u16>())` panics when the payload is
      -- shorter than 2 bytes
      if payload.length < 2 then
        (d, s, .panicked)
      else
        let status_code := fromBeBytes (payload.take 2)
        let body := payload.drop 2
        (d, s, .error (.ReceivedCloseFrame status_code body))
  | (d, .ok frame) => (d, out, .ok frame)
  | (d, .error e) => (d, out, .error e)

structure Websocket where
  closed : Bool
  decoder : Decoder
  out : WriteStream
deriving DecidableEq

/-- `Websocket::ensure_not_closed` (`src/ws/mod.rs` lines 239-244). -/
def ensure_not_closed (w : Websocket) : Except WsError Unit :=
  if w.closed then .error .Closed else .ok ()

/-- `Websocket::next` (`src/ws/mod.rs` lines 215-224): fail fast when
closed, otherwise run `State::next`, and latch `closed := true` on any
error.  A panic propagates without touching `closed`. -/
def wsNext (w : Websocket) : Websocket × NextResult :=
  match ensure_not_closed w with
  | .error e => (w, .error e)
  | .ok () =>
    match connectionNext w.decoder w.out with
    | (d, o, .ok frame) => ({ closed := w.closed, decoder := d, out := o }, .ok frame)
    | (d, o, .error e) => ({ closed := true, decoder := d, out := o }, .error e)
    | (d, o, .panicked) => ({ closed := w.closed, decoder := d, out := o }, .panicked)

/-- `Websocket::send` (`src/ws/mod.rs` lines 227-236) in the established
state: fail fast when closed, otherwise encode the frame on the stream and
latch `closed := true` on an I/O error. -/
def wsSend (w : Websocket) (fin : Bool) (op_code : Nat) (body : Option (List Nat)) :
    Websocket × NextResult :=
  match ensure_not_closed w with
  | .error e => (w, .error e)
  | .ok () =>
    match send w.out fin op_code body with
    | .ok s => ({ w with out := s }, .ok none)
    | .ioError s => ({ closed := true, decoder := w.decoder, out := s }, .error .ioErr)
    | .panicked s => ({ w with out := s }, .panicked)

/-! ## ReadBuffer (`src/buffer.rs`)

`inner` models the `Vec<u8>` backing storage (its length is the capacity
relevant to the source's bounds: the vector is created as `vec![0; cap]`
and only ever resized by exact doubling, so `len == capacity` throughout).
A `Read` source is modelled as a function from the offered slice length to
the outcome of one `read` call; the `Read` contract (a read never reports
more bytes than the slice holds) is an explicit hypothesis where needed. -/

structure ReadBuffer where
  inner : List Nat
  head : Nat
  tail : Nat
deriving DecidableEq

/-- `ReadBuffer::new` (the `CHUNK_SIZE <= INITIAL_CAPACITY` assertion is the
hypothesis of `BufReachable.new` below). -/
def ReadBuffer.new (initialCapacity : Nat) : ReadBuffer :=
  { inner := List.replicate initialCapacity 0, head := 0, tail := 0 }

def ReadBuffer.available (b : ReadBuffer) : Nat := b.tail - b.head

inductive ReadMode where
  | Chunk
  | Available
deriving DecidableEq

/-- Result of one `stream.read(..)` call.  `bytes []` is `Ok(0)`, which
`no_block` turns into an `UnexpectedEof` error. -/
inductive ReadOutcome where
  | bytes (data : List Nat)
  | wouldBlock
  | ioError
deriving DecidableEq

def outcomeLen : ReadOutcome → Nat
  | .bytes data => data.length
  | .wouldBlock => 0
  | .ioError => 0

/-- Overwrite `data.length` bytes of `l` starting at position `pos`
(`stream.read(&mut inner[pos..])` writing into the slice). -/
def writeAt (l : List Nat) (pos : Nat) (data : List Nat) : List Nat :=
  l.take pos ++ data ++ l.drop (pos + data.length)

/-- The `compact` helper of `read_from_with_mode`: `ptr::copy` moves the
`available` live bytes to offset 0, then `tail -= head; head = 0`.  Bytes
at positions `available..len` keep their old values. -/
def compact (b : ReadBuffer) : ReadBuffer :=
  { inner := (b.inner.drop b.head).take b.available ++ b.inner.drop b.available,
    head := 0, tail := b.tail - b.head }

/-- `if self.head > 0 && self.available() > 0 { compact(self) }` -/
def compactStep (b : ReadBuffer) : ReadBuffer :=
  if 0 < b.head ∧ 0 < b.available then compact b else b

/-- `if self.head > 0 && self.available() == 0 { self.head = 0; self.tail = 0; }` -/
def clearStep (b : ReadBuffer) : ReadBuffer :=
  if 0 < b.head ∧ b.available = 0 then { b with head := 0, tail := 0 } else b

/-- `if self.tail + CHUNK_SIZE > self.inner.capacity() { grow(&mut self.inner) }`;
`grow` is `buf.resize(buf.len() * 2, 0)`. -/
def growStep (chunkSize : Nat) (b : ReadBuffer) : ReadBuffer :=
  if b.inner.length < b.tail + chunkSize then
    { b with inner := b.inner ++ List.replicate b.inner.length 0 }
  else b

/-- `ReadBuffer::read_from_with_mode` (`src/buffer.rs` lines 98-137):
compact, clear, grow, then one `stream.read` into the remaining slice
(`[tail..tail+CHUNK_SIZE]` in `Chunk` mode, `[tail..]` in `Available`
mode) followed by `self.tail += read.no_block()?`.  The returned `Bool`
is `true` on `Ok` and `false` when an error is propagated; the buffer
state is returned in either case since the source mutates in place. -/
def applyRead (b3 : ReadBuffer) (outcome : ReadOutcome) : ReadBuffer × Bool :=
  match outcome with
  | .bytes [] => (b3, false)
  | .bytes data =>
    ({ b3 with inner := writeAt b3.inner b3.tail data, tail := b3.tail + data.length }, true)
  | .wouldBlock => (b3, true)
  | .ioError => (b3, false)

def read_from_with_mode (b : ReadBuffer) (chunkSize : Nat) (mode : ReadMode)
    (stream : Nat → ReadOutcome) : ReadBuffer × Bool :=
  let b3 := growStep chunkSize (clearStep (compactStep b))
  let sliceLen : Nat :=
    match mode with
    | .Chunk => chunkSize
    | .Available => b3.inner.length - b3.tail
  applyRead b3 (stream sliceLen)

/-- `ReadBuffer::read_from`. -/
def read_from (b : ReadBuffer) (chunkSize : Nat) (stream : Nat → ReadOutcome) :
    ReadBuffer × Bool :=
  read_from_with_mode b chunkSize .Chunk stream

/-- `ReadBuffer::read_all_from`. -/
def read_all_from (b : ReadBuffer) (chunkSize : Nat) (stream : Nat → ReadOutcome) :
    ReadBuffer × Bool :=
  read_from_with_mode b chunkSize .Available stream

/-- `ReadBuffer::consume_next_unchecked`. -/
def consume_next_unchecked (b : ReadBuffer) (len : Nat) : ReadBuffer × List Nat :=
  ({ b with head := b.head + len }, (b.inner.drop b.head).take len)

/-- `ReadBuffer::consume_next` (`src/buffer.rs` lines 139-145). -/
def consume_next (b : ReadBuffer) (len : Nat) : ReadBuffer × Option (List Nat) :=
  if b.available ≥ len then
    let r := consume_next_unchecked b len
    (r.1, some r.2)
  else
    (b, none)

/-- `ReadBuffer::consume_next_byte_unchecked`. -/
def consume_next_byte_unchecked (b : ReadBuffer) : ReadBuffer × Nat :=
  ({ b with head := b.head + 1 }, b.inner.getD b.head 0)

/-- `ReadBuffer::consume_next_byte` (`src/buffer.rs` lines 167-173). -/
def consume_next_byte (b : ReadBuffer) : ReadBuffer × Option Nat :=
  if b.available ≥ 1 then
    let r := consume_next_byte_unchecked b
    (r.1, some r.2)
  else
    (b, none)

/-- The buffer invariant of the claim: cursors are ordered and in bounds.
`chunkSize ≤ capacity` is the `CHUNK_SIZE <= INITIAL_CAPACITY` assertion
carried along (it is needed for the grow step to restore bounds). -/
def BufInv (chunkSize : Nat) (b : ReadBuffer) : Prop :=
  b.head ≤ b.tail ∧ b.tail ≤ b.inner.length ∧ chunkSize ≤ b.inner.length

/-- All states reachable from `ReadBuffer::new` by any interleaving of
`read_from`, `read_all_from` (over any `Read` source honouring the read
contract, including `WouldBlock`, short reads, EOF and errors) and the
checked `consume_next` / `consume_next_byte`. -/
inductive BufReachable (chunkSize initialCapacity : Nat) : ReadBuffer → Prop where
  | new :
      chunkSize ≤ initialCapacity →
      BufReachable chunkSize initialCapacity (ReadBuffer.new initialCapacity)
  | read_chunk (b : ReadBuffer) (stream : Nat → ReadOutcome) :
      BufReachable chunkSize initialCapacity b →
      (∀ n, outcomeLen (stream n) ≤ n) →
      BufReachable chunkSize initialCapacity (read_from b chunkSize stream).1
  | read_all (b : ReadBuffer) (stream : Nat → ReadOutcome) :
      BufReachable chunkSize initialCapacity b →
      (∀ n, outcomeLen (stream n) ≤ n) →
      BufReachable chunkSize initialCapacity (read_all_from b chunkSize stream).1
  | consume (b : ReadBuffer) (len : Nat) :
      BufReachable chunkSize initialCapacity b →
      BufReachable chunkSize initialCapacity (consume_next b len).1
  | consume_byte (b : ReadBuffer) :
      BufReachable chunkSize initialCapacity b →
      BufReachable chunkSize initialCapacity (consume_next_byte b).1

theorem BufInv_compactStep (cs : Nat) (b : ReadBuffer) (h : BufInv cs b) :
    BufInv cs (compactStep b) := by
  obtain ⟨h1, h2, h3⟩ := h
  unfold compactStep compact
  split
  · refine ⟨?_, ?_, ?_⟩ <;>
      simp [ReadBuffer.available, List.length_append, List.length_take, List.length_drop] <;>
      omega
  · exact ⟨h1, h2, h3⟩

theorem BufInv_clearStep (cs : Nat) (b : ReadBuffer) (h : BufInv cs b) :
    BufInv cs (clearStep b) := by
  obtain ⟨h1, h2, h3⟩ := h
  unfold clearStep
  split
  · exact ⟨Nat.le_refl 0, Nat.zero_le _, h3⟩
  · exact ⟨h1, h2, h3⟩

theorem BufInv_growStep (cs : Nat) (b : ReadBuffer) (h : BufInv cs b) :
    BufInv cs (growStep cs b) ∧
      (growStep cs b).tail + cs ≤ (growStep cs b).inner.length := by
  obtain ⟨h1, h2, h3⟩ := h
  unfold growStep
  split
  · refine ⟨⟨?_, ?_, ?_⟩, ?_⟩ <;>
      simp [List.length_append, List.length_replicate] <;> omega
  · exact ⟨⟨h1, h2, h3⟩, by omega⟩

theorem length_writeAt (l : List Nat) (pos : Nat) (data : List Nat)
    (h : pos + data.length ≤ l.length) :
    (writeAt l pos data).length = l.length := by
  simp [writeAt, List.length_append, List.length_take, List.length_drop]
  omega

theorem BufInv_applyRead (cs : Nat) (b3 : ReadBuffer) (outcome : ReadOutcome)
    (h : BufInv cs b3) (hlen : b3.tail + outcomeLen outcome ≤ b3.inner.length) :
    BufInv cs (applyRead b3 outcome).1 := by
  obtain ⟨h1, h2, h3⟩ := h
  cases outcome with
  | bytes data =>
    cases data with
    | nil => exact ⟨h1, h2, h3⟩
    | cons x xs =>
      simp only [outcomeLen] at hlen
      have hw := length_writeAt b3.inner b3.tail (x :: xs) hlen
      show BufInv cs { inner := writeAt b3.inner b3.tail (x :: xs), head := b3.head,
                       tail := b3.tail + (x :: xs).length }
      refine ⟨?_, ?_, ?_⟩
      · show b3.head ≤ b3.tail + (x :: xs).length
        omega
      · show b3.tail + (x :: xs).length ≤ (writeAt b3.inner b3.tail (x :: xs)).length
        rw [hw]; exact hlen
      · show cs ≤ (writeAt b3.inner b3.tail (x :: xs)).length
        rw [hw]; exact h3
  | wouldBlock => exact ⟨h1, h2, h3⟩
  | ioError => exact ⟨h1, h2, h3⟩

theorem BufInv_read_from_with_mode (cs : Nat) (b : ReadBuffer) (mode : ReadMode)
    (stream : Nat → ReadOutcome) (hb : BufInv cs b)
    (hs : ∀ n, outcomeLen (stream n) ≤ n) :
    BufInv cs (read_from_with_mode b cs mode stream).1 := by
  have hb3 := BufInv_growStep cs (clearStep (compactStep b))
    (BufInv_clearStep cs (compactStep b) (BufInv_compactStep cs b hb))
  obtain ⟨⟨h1, h2, h3⟩, h4⟩ := hb3
  cases mode with
  | Chunk =>
    show BufInv cs (applyRead (growStep cs (clearStep (compactStep b))) (stream cs)).1
    apply BufInv_applyRead cs _ _ ⟨h1, h2, h3⟩
    have := hs cs
    omega
  | Available =>
    show BufInv cs (applyRead (growStep cs (clearStep (compactStep b)))
      (stream ((growStep cs (clearStep (compactStep b))).inner.length -
        (growStep cs (clearStep (compactStep b))).tail))).1
    apply BufInv_applyRead cs _ _ ⟨h1, h2, h3⟩
    have := hs ((growStep cs (clearStep (compactStep b))).inner.length -
      (growStep cs (clearStep (compactStep b))).tail)
    omega

/-! ## I/O service: DNS resolution and admission throttle (`src/service/mod.rs`)

Addresses are abstract (`Nat`).  The outcome of `query.poll()` at a given
moment is an input (`DnsPollResult`), as is the outcome of
`endpoint.create_target` (`CreateResult`).  Only the pending-endpoint
admission logic of `IOService::poll` (lines 222-251) is modelled: the
selector, TTL sweep and per-endpoint polling that follow neither read nor
write `next_endpoint_create_time_ns` and admit no pending endpoint. -/

def ENDPOINT_CREATION_THROTTLE_NS : Nat := 1000000000

def DNS_RESOLVE_TIMEOUT_NS : Nat := 5000000000

inductive DnsPollResult where
  | ok (addrs : List Nat)
  | wouldBlock
  | ioError
deriving DecidableEq

inductive DnsError where
  | timedOut
  | noAddress
  | ioErr
deriving DecidableEq

/-- `IOService::resolve_dns` (`src/service/mod.rs` lines 188-208): the
5-second deadline is checked against the query creation time FIRST; only
then is the query polled.  `Ok none` means `WouldBlock` (caller re-queues). -/
def resolve_dns (now created_time_ns : Nat) (poll : DnsPollResult) :
    Except DnsError (Option Nat) :=
  if now > created_time_ns + DNS_RESOLVE_TIMEOUT_NS then
    .error .timedOut
  else
    match poll with
    | .ok addrs =>
      match addrs.head? with
      | some addr => .ok (some addr)
      | none => .error .noAddress
    | .wouldBlock => .ok none
    | .ioError => .error .ioErr

inductive CreateResult where
  | created
  | notReady
  | createErr
deriving DecidableEq

/-- The throttle-relevant part of the service state: the pending queue
(handle, dns-query creation time) and `next_endpoint_create_time_ns`. -/
structure ServiceState where
  pending : List (Nat × Nat)
  next_endpoint_create_time_ns : Nat
deriving DecidableEq

/-- One call to `IOService::poll`: the current time reported by the time
source and the externally supplied outcomes of `query.poll()` and
`endpoint.create_target`. -/
structure PollEvent where
  timeNs : Nat
  dns : DnsPollResult
  create : CreateResult
deriving DecidableEq

/-- The pending-endpoint admission block of `IOService::poll`
(`src/service/mod.rs` lines 222-251).  Returns the new state, whether an
admission attempt was initiated (the head of the pending queue was popped)
and whether the poll returned an error.  Note the source updates
`next_endpoint_create_time_ns` on line 249 only when reaching the end of
the block: an `Err` from `resolve_dns`, `create_target` or
`selector.register` propagates through `?` first and skips the update. -/
def pollStep (s : ServiceState) (e : PollEvent) : ServiceState × Bool × Bool :=
  match s.pending with
  | [] => (s, false, false)
  | (handle, query_time_ns) :: rest =>
    if e.timeNs > s.next_endpoint_create_time_ns then
      match resolve_dns e.timeNs query_time_ns e.dns with
      | .error _ =>
        ({ pending := rest, next_endpoint_create_time_ns := s.next_endpoint_create_time_ns },
          true, true)
      | .ok none =>
        ({ pending := rest ++ [(handle, query_time_ns)],
           next_endpoint_create_time_ns := e.timeNs + ENDPOINT_CREATION_THROTTLE_NS },
          true, false)
      | .ok (some _) =>
        match e.create with
        | .createErr =>
          ({ pending := rest, next_endpoint_create_time_ns := s.next_endpoint_create_time_ns },
            true, true)
        | .created =>
          ({ pending := rest,
             next_endpoint_create_time_ns := e.timeNs + ENDPOINT_CREATION_THROTTLE_NS },
            true, false)
        | .notReady =>
          ({ pending := rest ++ [(handle, e.timeNs)],
             next_endpoint_create_time_ns := e.timeNs + ENDPOINT_CREATION_THROTTLE_NS },
            true, false)
    else
      (s, false, false)

/-- Run a sequence of `IOService::poll` calls; returns the final state, the
times at which admission attempts were initiated, and whether any poll
returned an error. -/
def runPolls (s : ServiceState) : List PollEvent → ServiceState × List Nat × Bool
  | [] => (s, [], false)
  | e :: es =>
    let r := pollStep s e
    let rec' := runPolls r.1 es
    (rec'.1, (if r.2.1 then [e.timeNs] else []) ++ rec'.2.1, r.2.2 || rec'.2.2)

/-- Case analysis on one `pollStep`: either no attempt was initiated and
the state is unchanged, or an attempt was initiated, the gate
`now > next_endpoint_create_time_ns` had passed, and the throttle
timestamp was advanced to `now + 1s` unless the poll returned an error. -/
theorem pollStep_cases (s : ServiceState) (e : PollEvent) :
    ((pollStep s e).2.1 = false ∧ (pollStep s e).1 = s) ∨
    ((pollStep s e).2.1 = true ∧ s.next_endpoint_create_time_ns < e.timeNs ∧
      ((pollStep s e).2.2 = true ∨
        (pollStep s e).1.next_endpoint_create_time_ns =
          e.timeNs + ENDPOINT_CREATION_THROTTLE_NS)) := by
  obtain ⟨pend, nxt⟩ := s
  cases pend with
  | nil => left; exact ⟨rfl, rfl⟩
  | cons hd rest =>
    obtain ⟨handle, qns⟩ := hd
    by_cases ht : e.timeNs > nxt
    · cases hr : resolve_dns e.timeNs qns e.dns with
      | error err => right; simp [pollStep, ht, hr]
      | ok oaddr =>
        cases oaddr with
        | none => right; simp [pollStep, ht, hr]
        | some addr =>
          cases hc : e.create with
          | createErr => right; simp [pollStep, ht, hr, hc]
          | created => right; simp [pollStep, ht, hr, hc]
          | notReady => right; simp [pollStep, ht, hr, hc]
    · left; simp [pollStep, ht]

/-- Along any error-free run, every admission attempt happens strictly
after the stored throttle timestamp, and any two attempts (in run order)
are more than `ENDPOINT_CREATION_THROTTLE_NS` apart. -/
theorem runPolls_attempt_spacing (es : List PollEvent) (s : ServiceState)
    (hne : (runPolls s es).2.2 = false) :
    (∀ t ∈ (runPolls s es).2.1, s.next_endpoint_create_time_ns < t) ∧
      (runPolls s es).2.1.Pairwise
        (fun a b => a + ENDPOINT_CREATION_THROTTLE_NS < b) := by
  induction es generalizing s with
  | nil => simp [runPolls]
  | cons e es ih =>
    simp only [runPolls, Bool.or_eq_false_iff] at hne ⊢
    obtain ⟨hne1, hne2⟩ := hne
    have ihh := ih (pollStep s e).1 hne2
    rcases pollStep_cases s e with ⟨hatt, hstate⟩ | ⟨hatt, htime, hnext⟩
    · rw [hstate] at ihh
      simp only [hatt, Bool.false_eq_true, if_false, List.nil_append, hstate]
      exact ihh
    · rcases hnext with hnext | hnext
      · rw [hnext] at hne1; cases hne1
      · rw [hnext] at ihh
        simp only [hatt, if_true, List.singleton_append]
        refine ⟨?_, ?_⟩
        · intro t ht
          rcases List.mem_cons.mp ht with ht | ht
          · omega
          · have := ihh.1 t ht
            omega
        · rw [List.pairwise_cons]
          refine ⟨fun t ht => ihh.1 t ht, ihh.2⟩

/-- A pairwise-spaced list has at most one element in any interval no wider
than the spacing. -/
theorem pairwise_spaced_countP_le_one (gap : Nat) (l : List Nat) (w : Nat)
    (hp : l.Pairwise (fun a b => a + gap < b)) :
    l.countP (fun t => decide (w ≤ t ∧ t ≤ w + gap)) ≤ 1 := by
  induction l with
  | nil => simp
  | cons x xs ih =>
    rw [List.pairwise_cons] at hp
    obtain ⟨hx, hxs⟩ := hp
    rw [List.countP_cons]
    by_cases hpx : w ≤ x ∧ x ≤ w + gap
    · have hzero : xs.countP (fun t => decide (w ≤ t ∧ t ≤ w + gap)) = 0 := by
        rw [List.countP_eq_zero]
        intro b hb
        have := hx b hb
        simp only [decide_eq_true_eq]
        omega
      have hdx : decide (w ≤ x ∧ x ≤ w + gap) = true := by
        simp only [decide_eq_true_eq]
        exact hpx
      rw [hzero, hdx]
      simp
    · have hdx : decide (w ≤ x ∧ x ≤ w + gap) = false := by
        simp only [decide_eq_false_iff_not]
        exact hpx
      rw [hdx]
      simpa using ih hxs

/-! ## Claim theorems -/

/-- C1: the claim states that a server frame with opcode 0xA (Pong) on an
established connection is surfaced to the user as a Pong frame.  The code
disagrees: the opcode dispatch in `Decoder::decode_next` (decoder.rs lines
121-127) has no arm for `protocol::op::PONG`, so a Pong frame falls into
the `unknown op_code` protocol error and the websocket closes.  Here a
Pong frame with payload "test" (wire bytes 8A 04 74 65 73 74) yields
`Protocol("unknown op_code")` and latches `closed`, instead of
`WebsocketFrame::Pong`. -/
theorem c1_pong_rejected_as_unknown_opcode :
    (wsNext { closed := false,
              decoder := freshDecoder [0x8A, 0x04, 0x74, 0x65, 0x73, 0x74],
              out := ⟨[], none⟩ }).2 = .error (.Protocol "unknown op_code") ∧
    (wsNext { closed := false,
              decoder := freshDecoder [0x8A, 0x04, 0x74, 0x65, 0x73, 0x74],
              out := ⟨[], none⟩ }).1.closed = true := by
  exact ⟨rfl, rfl⟩

/-- C2: on an established connection, decoding a Ping frame makes the
websocket write exactly one Pong frame whose payload is byte-for-byte the
Ping payload (the write happens inside this very call, hence before any
later user-initiated send appends to the stream), and the Ping frame is
not yielded to the user (`Ok(None)` is returned). -/
theorem c2_ping_auto_pong (d d' : Decoder) (out : List Nat) (payload : List Nat)
    (hdec : decode_next d = (d', .ok (some (.Ping payload)))) :
    wsNext { closed := false, decoder := d, out := ⟨out, none⟩ } =
      ({ closed := false, decoder := d',
         out := ⟨out ++ frameBytes true op.PONG (some payload), none⟩ }, .ok none) := by
  simp [wsNext, ensure_not_closed, connectionNext, hdec, send_budget_none]

/-- Witness for C2: the server sends Ping "AB" (wire 89 02 41 42); the
client writes the Pong frame 8A 82 00 00 00 00 41 42 and the user sees no
frame. -/
theorem c2_ping_auto_pong_witness :
    wsNext { closed := false, decoder := freshDecoder [0x89, 0x02, 0x41, 0x42],
             out := ⟨[], none⟩ } =
      ({ closed := false,
         decoder := ⟨[], .ReadingHeader, true, 2, 9, false⟩,
         out := ⟨[] ++ frameBytes true op.PONG (some [0x41, 0x42]), none⟩ }, .ok none) :=
  c2_ping_auto_pong (freshDecoder [0x89, 0x02, 0x41, 0x42])
    ⟨[], .ReadingHeader, true, 2, 9, false⟩ [] [0x41, 0x42] (by decide)

/-- C3 (amended): for every received Close frame whose payload is at least
2 bytes, the websocket sends a Close echo, parses the first 2 payload
bytes as a big-endian status code and the rest as the close reason, yields
the terminal error `ReceivedCloseFrame(status, reason)`, latches
`closed := true`, and — since a closed websocket is returned unchanged by
every operation — every subsequent send or receive returns `Closed`.
(The unamended claim, for payloads shorter than 2 bytes, fails: see the
counterexample, where the `split_at` panics instead.) -/
theorem c3_close_terminal (d d' : Decoder) (out : List Nat) (payload : List Nat)
    (hdec : decode_next d = (d', .ok (some (.Close payload))))
    (hlen : 2 ≤ payload.length) :
    wsNext { closed := false, decoder := d, out := ⟨out, none⟩ } =
      ({ closed := true, decoder := d',
         out := ⟨out ++ frameBytes true op.CONNECTION_CLOSE (some payload), none⟩ },
        .error (.ReceivedCloseFrame (fromBeBytes (payload.take 2)) (payload.drop 2))) ∧
    (∀ w' : Websocket, w'.closed = true →
      wsNext w' = (w', .error .Closed) ∧
      ∀ fin op_code body, wsSend w' fin op_code body = (w', .error .Closed)) := by
  constructor
  · have hnotlt : ¬payload.length < 2 := by omega
    simp [wsNext, ensure_not_closed, connectionNext, hdec, send_budget_none, hnotlt]
  · intro w' hclosed
    constructor
    · simp [wsNext, ensure_not_closed, hclosed]
    · intro fin op_code body
      simp [wsSend, ensure_not_closed, hclosed]

/-- Witness for C3: Close with status 1000 and reason "by" (payload
03 E8 62 79).  The first call yields `ReceivedCloseFrame(1000, "by")`, and
an already-closed websocket answers `Closed` to receives and sends. -/
theorem c3_close_terminal_witness :
    (wsNext { closed := false,
              decoder := freshDecoder [0x88, 0x04, 0x03, 0xE8, 0x62, 0x79],
              out := ⟨[], none⟩ }).2 =
      .error (.ReceivedCloseFrame 1000 [0x62, 0x79]) ∧
    wsNext { closed := true, decoder := Decoder.new, out := ⟨[], none⟩ } =
      ({ closed := true, decoder := Decoder.new, out := ⟨[], none⟩ }, .error .Closed) ∧
    wsSend { closed := true, decoder := Decoder.new, out := ⟨[], none⟩ } true op.TEXT_FRAME none =
      ({ closed := true, decoder := Decoder.new, out := ⟨[], none⟩ }, .error .Closed) := by
  have h := c3_close_terminal (freshDecoder [0x88, 0x04, 0x03, 0xE8, 0x62, 0x79])
    ⟨[], .ReadingHeader, true, 4, 8, false⟩ [] [0x03, 0xE8, 0x62, 0x79]
    (by decide) (by decide)
  refine ⟨?_, ?_, ?_⟩
  · rw [h.1]; decide
  · exact (h.2 _ rfl).1
  · exact (h.2 _ rfl).2 true op.TEXT_FRAME none

/-- C3 counterexample: the unamended claim quantifies over every received
Close frame, but a Close frame with an empty payload (wire 88 00) makes
`payload.split_at(2)` panic, so no `ReceivedCloseFrame` error is yielded
at all. -/
theorem c3_close_empty_payload_panics :
    (wsNext { closed := false, decoder := freshDecoder [0x88, 0x00],
              out := ⟨[], none⟩ }).2 = .panicked := by
  exact rfl

/-- C4: the claim states that apart from the `can_recreate` panic no
library operation unwinds; in particular an I/O error while writing the
4-byte masking key is returned, and decoding a Close frame of any payload
length returns an error value.  The code disagrees on both points, and the
claim (backed by the spec's error-handling policy) describes the intent:
(1) `encoder::send` calls `.unwrap()` on exactly the masking-key write
(encoder.rs line 33, inconsistent with the `?` on every neighbouring
write), so a stream that accepts two writes and then fails makes the
encoder panic rather than return the error; (2) a received Close frame
with a 1-byte payload (wire 88 01 E8) panics in `payload.split_at(2)`
(mod.rs line 320) rather than producing an error value. -/
theorem c4_unwind_paths :
    send ⟨[], some 2⟩ true op.TEXT_FRAME (some [0x41]) =
      .panicked ⟨[0x81, 0x81], some 0⟩ ∧
    (wsNext { closed := false, decoder := freshDecoder [0x88, 0x01, 0xE8],
              out := ⟨[], none⟩ }).2 = .panicked := by
  exact ⟨rfl, rfl⟩

/-- C6: every frame the client encoder emits consists of the FIN+opcode
byte, a length byte with the mask bit (0x80) set — the length inline when
at most 125, marker 126 plus 2 big-endian bytes up to 65535, marker 127
plus 8 big-endian bytes above that — then a 4-byte all-zero masking key,
then the payload bytes unmodified. -/
theorem c6_encoder_wire_format (fin : Bool) (op_code : Nat) (body : Option (List Nat))
    (h : (body.getD []).length ≤ U64_MAX) :
    send ⟨[], none⟩ fin op_code body =
      .ok ⟨((if fin then FIN_MASK else 0) ||| op_code) ::
        (let len := (body.getD []).length
         if len ≤ 125 then [MASK_MASK ||| len]
         else if len ≤ 65535 then [MASK_MASK ||| 126, len / 256 % 256, len % 256]
         else [MASK_MASK ||| 127, len / 256 ^ 7 % 256, len / 256 ^ 6 % 256,
               len / 256 ^ 5 % 256, len / 256 ^ 4 % 256, len / 256 ^ 3 % 256,
               len / 256 ^ 2 % 256, len / 256 % 256, len % 256]) ++
        [0, 0, 0, 0] ++ body.getD [], none⟩ := by
  rw [send_budget_none]
  cases body with
  | none => simp [frameBytes, beBytes]
  | some b =>
    by_cases h1 : b.length ≤ 125
    · simp [frameBytes, beBytes, h1]
    · by_cases h2 : b.length ≤ 65535
      · simp [frameBytes, beBytes, h1, h2]
      · simp only [Option.getD_some] at h
        simp [frameBytes, beBytes, h1, h2, h]

/-- Witness for C6: a FIN text frame with payload "A" is encoded as
81 81 00 00 00 00 41. -/
theorem c6_encoder_wire_format_witness :
    send ⟨[], none⟩ true op.TEXT_FRAME (some [0x41]) =
      .ok ⟨[0x81, 0x81, 0, 0, 0, 0, 0x41], none⟩ := by
  have h := c6_encoder_wire_format true op.TEXT_FRAME (some [0x41]) (by decide)
  rw [h]
  decide

/-! ## Round-trip support (claim C5) -/

/-- Modelled from the spec: canonical length encoding of a server frame
(§6 wire format; minimal form, mask bit clear). -/
def serverLenBytes (l : Nat) : List Nat :=
  if l ≤ 125 then [l]
  else if l ≤ 65535 then 126 :: beBytes 2 l
  else 127 :: beBytes 8 l

/-- Modelled from the spec: canonical wire bytes of one unmasked server
frame (§6): FIN+opcode byte, canonical length encoding, payload. -/
def serverFrameBytes (fin : Bool) (op_code : Nat) (p : List Nat) : List Nat :=
  ((if fin then FIN_MASK else 0) ||| op_code) :: serverLenBytes p.length ++ p

/-- Modelled from the spec: the round-trip claim re-encodes a decoded
frame, so each frame variant is mapped back to the (fin, opcode, payload)
triple handed to the encoder; control frames carry no `fin` of their own
and re-encode with FIN set. -/
def frameToParts : WebsocketFrame → Bool × Nat × List Nat
  | .Ping payload => (true, op.PING, payload)
  | .Pong payload => (true, op.PONG, payload)
  | .Text fin payload => (fin, op.TEXT_FRAME, payload)
  | .Binary fin payload => (fin, op.BINARY_FRAME, payload)
  | .Continuation fin payload => (fin, op.CONTINUATION_FRAME, payload)
  | .Close payload => (true, op.CONNECTION_CLOSE, payload)

/-- Re-encode a decoded frame through `encoder::send` (via its wire image
`frameBytes`). -/
def reencode (f : WebsocketFrame) : List Nat :=
  frameBytes (frameToParts f).1 (frameToParts f).2.1 (some (frameToParts f).2.2)

/-- Decode one frame from `wire` with a fresh decoder and re-encode it;
`none` when decoding fails or yields no frame. -/
def decodeReencode (wire : List Nat) : Option (List Nat) :=
  match decode_next (freshDecoder wire) with
  | (_, .ok (some f)) => some (reencode f)
  | _ => none

/-- C5 counterexample: the claim `encode(decode(frame)) == frame` fails on
the very first frame in its scope — the canonical FIN text frame with
empty payload (wire 81 00, opcode 0x1, length 0): decoding and
re-encoding yields 81 80 00 00 00 00 (mask bit set, 4-byte zero masking
key inserted), which differs from the original wire bytes. -/
theorem c5_encode_decode_not_identity :
    serverFrameBytes true op.TEXT_FRAME [] = [0x81, 0x00] ∧
    decodeReencode [0x81, 0x00] = some [0x81, 0x80, 0x00, 0x00, 0x00, 0x00] ∧
    ¬ decodeReencode [0x81, 0x00] = some [0x81, 0x00] := by
  exact ⟨rfl, rfl, by decide⟩

/-- Crossing the 2-byte guard of `stepExt2` when both bytes are present. -/
theorem stepExt2_cons (b0 b1 : Nat) (rest : List Nat) (st : DecodeState) (f : Bool)
    (pl opc : Nat) (nmd : Bool) :
    stepExt2 ⟨b0 :: b1 :: rest, st, f, pl, opc, nmd⟩ =
      stepPayload ⟨rest, .ReadingPayload, f, fromBeBytes [b0, b1], opc, nmd⟩ := by
  show (if (b0 :: b1 :: rest : List Nat).length ≥ 2 then _ else _) = _
  rw [if_pos (by simp only [List.length_cons]; omega)]
  rfl

/-- Crossing the 8-byte guard of `stepExt8` when all bytes are present. -/
theorem stepExt8_cons (b0 b1 b2 b3 b4 b5 b6 b7 : Nat) (rest : List Nat) (st : DecodeState)
    (f : Bool) (pl opc : Nat) (nmd : Bool) :
    stepExt8 ⟨b0 :: b1 :: b2 :: b3 :: b4 :: b5 :: b6 :: b7 :: rest, st, f, pl, opc, nmd⟩ =
      stepPayload ⟨rest, .ReadingPayload, f, fromBeBytes [b0, b1, b2, b3, b4, b5, b6, b7],
        opc, nmd⟩ := by
  show (if (b0 :: b1 :: b2 :: b3 :: b4 :: b5 :: b6 :: b7 :: rest : List Nat).length ≥ 8
        then _ else _) = _
  rw [if_pos (by simp only [List.length_cons]; omega)]
  rfl

/-- `stepPayload` when the whole payload is buffered: text frame (opcode 0x1). -/
theorem stepPayload_Text (buf : List Nat) (st : DecodeState) (f : Bool) (pl : Nat) (nmd : Bool)
    (h : pl = buf.length) :
    stepPayload ⟨buf, st, f, pl, 0x1, nmd⟩ =
      (⟨[], .ReadingHeader, f, pl, 0x1, nmd⟩, .ok (some (.Text f buf))) := by
  subst h
  show (if buf.length ≥ buf.length then _ else _) = _
  rw [if_pos (Nat.le_refl _)]
  simp only [List.take_length, List.drop_length]
  rfl

/-- `stepPayload` when the whole payload is buffered: binary frame (opcode 0x2). -/
theorem stepPayload_Binary (buf : List Nat) (st : DecodeState) (f : Bool) (pl : Nat) (nmd : Bool)
    (h : pl = buf.length) :
    stepPayload ⟨buf, st, f, pl, 0x2, nmd⟩ =
      (⟨[], .ReadingHeader, f, pl, 0x2, nmd⟩, .ok (some (.Binary f buf))) := by
  subst h
  show (if buf.length ≥ buf.length then _ else _) = _
  rw [if_pos (Nat.le_refl _)]
  simp only [List.take_length, List.drop_length]
  rfl

/-- `stepPayload` when the whole payload is buffered: continuation frame (opcode 0x0). -/
theorem stepPayload_Continuation (buf : List Nat) (st : DecodeState) (f : Bool) (pl : Nat)
    (nmd : Bool) (h : pl = buf.length) :
    stepPayload ⟨buf, st, f, pl, 0x0, nmd⟩ =
      (⟨[], .ReadingHeader, f, pl, 0x0, nmd⟩, .ok (some (.Continuation f buf))) := by
  subst h
  show (if buf.length ≥ buf.length then _ else _) = _
  rw [if_pos (Nat.le_refl _)]
  simp only [List.take_length, List.drop_length]
  rfl

/-- `stepPayload` when the whole payload is buffered: ping frame (opcode 0x9). -/
theorem stepPayload_Ping (buf : List Nat) (st : DecodeState) (f : Bool) (pl : Nat) (nmd : Bool)
    (h : pl = buf.length) :
    stepPayload ⟨buf, st, f, pl, 0x9, nmd⟩ =
      (⟨[], .ReadingHeader, f, pl, 0x9, nmd⟩, .ok (some (.Ping buf))) := by
  subst h
  show (if buf.length ≥ buf.length then _ else _) = _
  rw [if_pos (Nat.le_refl _)]
  simp only [List.take_length, List.drop_length]
  rfl

/-- `stepPayload` when the whole payload is buffered: close frame (opcode 0x8). -/
theorem stepPayload_Close (buf : List Nat) (st : DecodeState) (f : Bool) (pl : Nat) (nmd : Bool)
    (h : pl = buf.length) :
    stepPayload ⟨buf, st, f, pl, 0x8, nmd⟩ =
      (⟨[], .ReadingHeader, f, pl, 0x8, nmd⟩, .ok (some (.Close buf))) := by
  subst h
  show (if buf.length ≥ buf.length then _ else _) = _
  rw [if_pos (Nat.le_refl _)]
  simp only [List.take_length, List.drop_length]
  rfl

/-- C5 (amended): for every opcode the decoder recognises (0x0, 0x1, 0x2,
0x8, 0x9 — the decoder rejects 0xA, see claim C1) and every payload length
in {0, 1, 125, 126, 127, 65535, 65536, 10000000} with canonical length
encoding, re-encoding a decoded server frame reproduces the original wire
bytes except that the mask bit (0x80) is set in the first length byte and
the encoder's 4-byte all-zero masking key is inserted before the payload;
control frames (0x8, 0x9) carry FIN set, matching their re-encoding.  The
unamended `encode(decode(frame)) == frame` fails for every frame because
of exactly this mask difference (see the counterexample). -/
theorem c5_reencode_inserts_mask (fin : Bool) (op_code : Nat) (p : List Nat)
    (hop : op_code ∈ [0x0, 0x1, 0x2, 0x8, 0x9])
    (hctl : op_code = 0x8 ∨ op_code = 0x9 → fin = true)
    (hlen : p.length ∈ [0, 1, 125, 126, 127, 65535, 65536, 10000000]) :
    decodeReencode (serverFrameBytes fin op_code p) =
      some (((if fin then FIN_MASK else 0) ||| op_code) ::
        (if p.length ≤ 125 then [MASK_MASK ||| p.length]
         else if p.length ≤ 65535 then (MASK_MASK ||| 126) :: beBytes 2 p.length
         else (MASK_MASK ||| 127) :: beBytes 8 p.length) ++
        [0, 0, 0, 0] ++ p) := by
  simp only [List.mem_cons, List.not_mem_nil, or_false] at hop hlen
  rcases hop with rfl | rfl | rfl | rfl | rfl
  · -- opcode 0x0 (Continuation)
    cases fin
    · -- fin = false
      rcases hlen with h | h | h | h | h | h | h | h
      · -- payload length 0
        have e1 : serverFrameBytes false 0 p = 0 :: 0 :: p := by
          simp only [serverFrameBytes, h]; rfl
        have e2 : decode_next (freshDecoder (0 :: 0 :: p)) =
            stepPayload ⟨p, .ReadingPayload, false, 0, 0, false⟩ := by rfl
        have e5 := stepPayload_Continuation p .ReadingPayload false 0 false h.symm
        have e6 : reencode (WebsocketFrame.Continuation false p) = frameBytes false 0 (some p) := by rfl
        rw [h, e1]
        simp only [decodeReencode]
        rw [e2, e5]
        show some (reencode (WebsocketFrame.Continuation false p)) = _
        rw [e6]
        simp only [frameBytes]
        rw [h]
        rfl
      · -- payload length 1
        have e1 : serverFrameBytes false 0 p = 0 :: 1 :: p := by
          simp only [serverFrameBytes, h]; rfl
        have e2 : decode_next (freshDecoder (0 :: 1 :: p)) =
            stepPayload ⟨p, .ReadingPayload, false, 1, 0, false⟩ := by rfl
        have e5 := stepPayload_Continuation p .ReadingPayload false 1 false h.symm
        have e6 : reencode (WebsocketFrame.Continuation false p) = frameBytes false 0 (some p) := by rfl
        rw [h, e1]
        simp only [decodeReencode]
        rw [e2, e5]
        show some (reencode (WebsocketFrame.Continuation false p)) = _
        rw [e6]
        simp only [frameBytes]
        rw [h]
        rfl
      · -- payload length 125
        have e1 : serverFrameBytes false 0 p = 0 :: 125 :: p := by
          simp only [serverFrameBytes, h]; rfl
        have e2 : decode_next (freshDecoder (0 :: 125 :: p)) =
            stepPayload ⟨p, .ReadingPayload, false, 125, 0, false⟩ := by rfl
        have e5 := stepPayload_Continuation p .ReadingPayload false 125 false h.symm
        have e6 : reencode (WebsocketFrame.Continuation false p) = frameBytes false 0 (some p) := by rfl
        rw [h, e1]
        simp only [decodeReencode]
        rw [e2, e5]
        show some (reencode (WebsocketFrame.Continuation false p)) = _
        rw [e6]
        simp only [frameBytes]
        rw [h]
        rfl
      · -- payload length 126
        have e1 : serverFrameBytes false 0 p = 0 :: 126 :: 0 :: 126 :: p := by
          simp only [serverFrameBytes, h]; rfl
        have e2 : decode_next (freshDecoder (0 :: 126 :: 0 :: 126 :: p)) =
            stepExt2 ⟨0 :: 126 :: p, .ReadingExtendedPayloadLength2, false, 126, 0, false⟩ := by rfl
        have e3 := stepExt2_cons 0 126 p .ReadingExtendedPayloadLength2 false 126 0 false
        have e4 : fromBeBytes [0, 126] = 126 := by rfl
        have e5 := stepPayload_Continuation p .ReadingPayload false 126 false h.symm
        have e6 : reencode (WebsocketFrame.Continuation false p) = frameBytes false 0 (some p) := by rfl
        rw [h, e1]
        simp only [decodeReencode]
        rw [e2, e3, e4, e5]
        show some (reencode (WebsocketFrame.Continuation false p)) = _
        rw [e6]
        simp only [frameBytes]
        rw [h]
        rfl
      · -- payload length 127
        have e1 : serverFrameBytes false 0 p = 0 :: 126 :: 0 :: 127 :: p := by
          simp only [serverFrameBytes, h]; rfl
        have e2 : decode_next (freshDecoder (0 :: 126 :: 0 :: 127 :: p)) =
            stepExt2 ⟨0 :: 127 :: p, .ReadingExtendedPayloadLength2, false, 126, 0, false⟩ := by rfl
        have e3 := stepExt2_cons 0 127 p .ReadingExtendedPayloadLength2 false 126 0 false
        have e4 : fromBeBytes [0, 127] = 127 := by rfl
        have e5 := stepPayload_Continuation p .ReadingPayload false 127 false h.symm
        have e6 : reencode (WebsocketFrame.Continuation false p) = frameBytes false 0 (some p) := by rfl
        rw [h, e1]
        simp only [decodeReencode]
        rw [e2, e3, e4, e5]
        show some (reencode (WebsocketFrame.Continuation false p)) = _
        rw [e6]
        simp only [frameBytes]
        rw [h]
        rfl
      · -- payload length 65535
        have e1 : serverFrameBytes false 0 p = 0 :: 126 :: 255 :: 255 :: p := by
          simp only [serverFrameBytes, h]; rfl
        have e2 : decode_next (freshDecoder (0 :: 126 :: 255 :: 255 :: p)) =
            stepExt2 ⟨255 :: 255 :: p, .ReadingExtendedPayloadLength2, false, 126, 0, false⟩ := by rfl
        have e3 := stepExt2_cons 255 255 p .ReadingExtendedPayloadLength2 false 126 0 false
        have e4 : fromBeBytes [255, 255] = 65535 := by rfl
        have e5 := stepPayload_Continuation p .ReadingPayload false 65535 false h.symm
        have e6 : reencode (WebsocketFrame.Continuation false p) = frameBytes false 0 (some p) := by rfl
        rw [h, e1]
        simp only [decodeReencode]
        rw [e2, e3, e4, e5]
        show some (reencode (WebsocketFrame.Continuation false p)) = _
        rw [e6]
        simp only [frameBytes]
        rw [h]
        rfl
      · -- payload length 65536
        have e1 : serverFrameBytes false 0 p = 0 :: 127 :: 0 :: 0 :: 0 :: 0 :: 0 :: 1 :: 0 :: 0 :: p := by
          simp only [serverFrameBytes, h]; rfl
        have e2 : decode_next (freshDecoder (0 :: 127 :: 0 :: 0 :: 0 :: 0 :: 0 :: 1 :: 0 :: 0 :: p)) =
            stepExt8 ⟨0 :: 0 :: 0 :: 0 :: 0 :: 1 :: 0 :: 0 :: p, .ReadingExtendedPayloadLength8, false, 127, 0, false⟩ := by rfl
        have e3 := stepExt8_cons 0 0 0 0 0 1 0 0 p .ReadingExtendedPayloadLength8 false 127 0 false
        have e4 : fromBeBytes [0, 0, 0, 0, 0, 1, 0, 0] = 65536 := by rfl
        have e5 := stepPayload_Continuation p .ReadingPayload false 65536 false h.symm
        have e6 : reencode (WebsocketFrame.Continuation false p) = frameBytes false 0 (some p) := by rfl
        rw [h, e1]
        simp only [decodeReencode]
        rw [e2, e3, e4, e5]
        show some (reencode (WebsocketFrame.Continuation false p)) = _
        rw [e6]
        simp only [frameBytes]
        rw [h]
        rfl
      · -- payload length 10000000
        have e1 : serverFrameBytes false 0 p = 0 :: 127 :: 0 :: 0 :: 0 :: 0 :: 0 :: 152 :: 150 :: 128 :: p := by
          simp only [serverFrameBytes, h]; rfl
        have e2 : decode_next (freshDecoder (0 :: 127 :: 0 :: 0 :: 0 :: 0 :: 0 :: 152 :: 150 :: 128 :: p)) =
            stepExt8 ⟨0 :: 0 :: 0 :: 0 :: 0 :: 152 :: 150 :: 128 :: p, .ReadingExtendedPayloadLength8, false, 127, 0, false⟩ := by rfl
        have e3 := stepExt8_cons 0 0 0 0 0 152 150 128 p .ReadingExtendedPayloadLength8 false 127 0 false
        have e4 : fromBeBytes [0, 0, 0, 0, 0, 152, 150, 128] = 10000000 := by rfl
        have e5 := stepPayload_Continuation p .ReadingPayload false 10000000 false h.symm
        have e6 : reencode (WebsocketFrame.Continuation false p) = frameBytes false 0 (some p) := by rfl
        rw [h, e1]
        simp only [decodeReencode]
        rw [e2, e3, e4, e5]
        show some (reencode (WebsocketFrame.Continuation false p)) = _
        rw [e6]
        simp only [frameBytes]
        rw [h]
        rfl
    · -- fin = true
      rcases hlen with h | h | h | h | h | h | h | h
      · -- payload length 0
        have e1 : serverFrameBytes true 0 p = 128 :: 0 :: p := by
          simp only [serverFrameBytes, h]; rfl
        have e2 : decode_next (freshDecoder (128 :: 0 :: p)) =
            stepPayload ⟨p, .ReadingPayload, true, 0, 0, false⟩ := by rfl
        have e5 := stepPayload_Continuation p .ReadingPayload true 0 false h.symm
        have e6 : reencode (WebsocketFrame.Continuation true p) = frameBytes true 0 (some p) := by rfl
        rw [h, e1]
        simp only [decodeReencode]
        rw [e2, e5]
        show some (reencode (WebsocketFrame.Continuation true p)) = _
        rw [e6]
        simp only [frameBytes]
        rw [h]
        rfl
      · -- payload length 1
        have e1 : serverFrameBytes true 0 p = 128 :: 1 :: p := by
          simp only [serverFrameBytes, h]; rfl
        have e2 : decode_next (freshDecoder (128 :: 1 :: p)) =
            stepPayload ⟨p, .ReadingPayload, true, 1, 0, false⟩ := by rfl
        have e5 := stepPayload_Continuation p .ReadingPayload true 1 false h.symm
        have e6 : reencode (WebsocketFrame.Continuation true p) = frameBytes true 0 (some p) := by rfl
        rw [h, e1]
        simp only [decodeReencode]
        rw [e2, e5]
        show some (reencode (WebsocketFrame.Continuation true p)) = _
        rw [e6]
        simp only [frameBytes]
        rw [h]
        rfl
      · -- payload length 125
        have e1 : serverFrameBytes true 0 p = 128 :: 125 :: p := by
          simp only [serverFrameBytes, h]; rfl
        have e2 : decode_next (freshDecoder (128 :: 125 :: p)) =
            stepPayload ⟨p, .ReadingPayload, true, 125, 0, false⟩ := by rfl
        have e5 := stepPayload_Continuation p .ReadingPayload true 125 false h.symm
        have e6 : reencode (WebsocketFrame.Continuation true p) = frameBytes true 0 (some p) := by rfl
        rw [h, e1]
        simp only [decodeReencode]
        rw [e2, e5]
        show some (reencode (WebsocketFrame.Continuation true p)) = _
        rw [e6]
        simp only [frameBytes]
        rw [h]
        rfl
      · -- payload length 126
        have e1 : serverFrameBytes true 0 p = 128 :: 126 :: 0 :: 126 :: p := by
          simp only [serverFrameBytes, h]; rfl
        have e2 : decode_next (freshDecoder (128 :: 126 :: 0 :: 126 :: p)) =
            stepExt2 ⟨0 :: 126 :: p, .ReadingExtendedPayloadLength2, true, 126, 0, false⟩ := by rfl
        have e3 := stepExt2_cons 0 126 p .ReadingExtendedPayloadLength2 true 126 0 false
        have e4 : fromBeBytes [0, 126] = 126 := by rfl
        have e5 := stepPayload_Continuation p .ReadingPayload true 126 false h.symm
        have e6 : reencode (WebsocketFrame.Continuation true p) = frameBytes true 0 (some p) := by rfl
        rw [h, e1]
        simp only [decodeReencode]
        rw [e2, e3, e4, e5]
        show some (reencode (WebsocketFrame.Continuation true p)) = _
        rw [e6]
        simp only [frameBytes]
        rw [h]
        rfl
      · -- payload length 127
        have e1 : serverFrameBytes true 0 p = 128 :: 126 :: 0 :: 127 :: p := by
          simp only [serverFrameBytes, h]; rfl
        have e2 : decode_next (freshDecoder (128 :: 126 :: 0 :: 127 :: p)) =
            stepExt2 ⟨0 :: 127 :: p, .ReadingExtendedPayloadLength2, true, 126, 0, false⟩ := by rfl
        have e3 := stepExt2_cons 0 127 p .ReadingExtendedPayloadLength2 true 126 0 false
        have e4 : fromBeBytes [0, 127] = 127 := by rfl
        have e5 := stepPayload_Continuation p .ReadingPayload true 127 false h.symm
        have e6 : reencode (WebsocketFrame.Continuation true p) = frameBytes true 0 (some p) := by rfl
        rw [h, e1]
        simp only [decodeReencode]
        rw [e2, e3, e4, e5]
        show some (reencode (WebsocketFrame.Continuation true p)) = _
        rw [e6]
        simp only [frameBytes]
        rw [h]
        rfl
      · -- payload length 65535
        have e1 : serverFrameBytes true 0 p = 128 :: 126 :: 255 :: 255 :: p := by
          simp only [serverFrameBytes, h]; rfl
        have e2 : decode_next (freshDecoder (128 :: 126 :: 255 :: 255 :: p)) =
            stepExt2 ⟨255 :: 255 :: p, .ReadingExtendedPayloadLength2, true, 126, 0, false⟩ := by rfl
        have e3 := stepExt2_cons 255 255 p .ReadingExtendedPayloadLength2 true 126 0 false
        have e4 : fromBeBytes [255, 255] = 65535 := by rfl
        have e5 := stepPayload_Continuation p .ReadingPayload true 65535 false h.symm
        have e6 : reencode (WebsocketFrame.Continuation true p) = frameBytes true 0 (some p) := by rfl
        rw [h, e1]
        simp only [decodeReencode]
        rw [e2, e3, e4, e5]
        show some (reencode (WebsocketFrame.Continuation true p)) = _
        rw [e6]
        simp only [frameBytes]
        rw [h]
        rfl
      · -- payload length 65536
        have e1 : serverFrameBytes true 0 p = 128 :: 127 :: 0 :: 0 :: 0 :: 0 :: 0 :: 1 :: 0 :: 0 :: p := by
          simp only [serverFrameBytes, h]; rfl
        have e2 : decode_next (freshDecoder (128 :: 127 :: 0 :: 0 :: 0 :: 0 :: 0 :: 1 :: 0 :: 0 :: p)) =
            stepExt8 ⟨0 :: 0 :: 0 :: 0 :: 0 :: 1 :: 0 :: 0 :: p, .ReadingExtendedPayloadLength8, true, 127, 0, false⟩ := by rfl
        have e3 := stepExt8_cons 0 0 0 0 0 1 0 0 p .ReadingExtendedPayloadLength8 true 127 0 false
        have e4 : fromBeBytes [0, 0, 0, 0, 0, 1, 0, 0] = 65536 := by rfl
        have e5 := stepPayload_Continuation p .ReadingPayload true 65536 false h.symm
        have e6 : reencode (WebsocketFrame.Continuation true p) = frameBytes true 0 (some p) := by rfl
        rw [h, e1]
        simp only [decodeReencode]
        rw [e2, e3, e4, e5]
        show some (reencode (WebsocketFrame.Continuation true p)) = _
        rw [e6]
        simp only [frameBytes]
        rw [h]
        rfl
      · -- payload length 10000000
        have e1 : serverFrameBytes true 0 p = 128 :: 127 :: 0 :: 0 :: 0 :: 0 :: 0 :: 152 :: 150 :: 128 :: p := by
          simp only [serverFrameBytes, h]; rfl
        have e2 : decode_next (freshDecoder (128 :: 127 :: 0 :: 0 :: 0 :: 0 :: 0 :: 152 :: 150 :: 128 :: p)) =
            stepExt8 ⟨0 :: 0 :: 0 :: 0 :: 0 :: 152 :: 150 :: 128 :: p, .ReadingExtendedPayloadLength8, true, 127, 0, false⟩ := by rfl
        have e3 := stepExt8_cons 0 0 0 0 0 152 150 128 p .ReadingExtendedPayloadLength8 true 127 0 false
        have e4 : fromBeBytes [0, 0, 0, 0, 0, 152, 150, 128] = 10000000 := by rfl
        have e5 := stepPayload_Continuation p .ReadingPayload true 10000000 false h.symm
        have e6 : reencode (WebsocketFrame.Continuation true p) = frameBytes true 0 (some p) := by rfl
        rw [h, e1]
        simp only [decodeReencode]
        rw [e2, e3, e4, e5]
        show some (reencode (WebsocketFrame.Continuation true p)) = _
        rw [e6]
        simp only [frameBytes]
        rw [h]
        rfl
  · -- opcode 0x1 (Text)
    cases fin
    · -- fin = false
      rcases hlen with h | h | h | h | h | h | h | h
      · -- payload length 0
        have e1 : serverFrameBytes false 1 p = 1 :: 0 :: p := by
          simp only [serverFrameBytes, h]; rfl
        have e2 : decode_next (freshDecoder (1 :: 0 :: p)) =
            stepPayload ⟨p, .ReadingPayload, false, 0, 1, false⟩ := by rfl
        have e5 := stepPayload_Text p .ReadingPayload false 0 false h.symm
        have e6 : reencode (WebsocketFrame.Text false p) = frameBytes false 1 (some p) := by rfl
        rw [h, e1]
        simp only [decodeReencode]
        rw [e2, e5]
        show some (reencode (WebsocketFrame.Text false p)) = _
        rw [e6]
        simp only [frameBytes]
        rw [h]
        rfl
      · -- payload length 1
        have e1 : serverFrameBytes false 1 p = 1 :: 1 :: p := by
          simp only [serverFrameBytes, h]; rfl
        have e2 : decode_next (freshDecoder (1 :: 1 :: p)) =
            stepPayload ⟨p, .ReadingPayload, false, 1, 1, false⟩ := by rfl
        have e5 := stepPayload_Text p .ReadingPayload false 1 false h.symm
        have e6 : reencode (WebsocketFrame.Text false p) = frameBytes false 1 (some p) := by rfl
        rw [h, e1]
        simp only [decodeReencode]
        rw [e2, e5]
        show some (reencode (WebsocketFrame.Text false p)) = _
        rw [e6]
        simp only [frameBytes]
        rw [h]
        rfl
      · -- payload length 125
        have e1 : serverFrameBytes false 1 p = 1 :: 125 :: p := by
          simp only [serverFrameBytes, h]; rfl
        have e2 : decode_next (freshDecoder (1 :: 125 :: p)) =
            stepPayload ⟨p, .ReadingPayload, false, 125, 1, false⟩ := by rfl
        have e5 := stepPayload_Text p .ReadingPayload false 125 false h.symm
        have e6 : reencode (WebsocketFrame.Text false p) = frameBytes false 1 (some p) := by rfl
        rw [h, e1]
        simp only [decodeReencode]
        rw [e2, e5]
        show some (reencode (WebsocketFrame.Text false p)) = _
        rw [e6]
        simp only [frameBytes]
        rw [h]
        rfl
      · -- payload length 126
        have e1 : serverFrameBytes false 1 p = 1 :: 126 :: 0 :: 126 :: p := by
          simp only [serverFrameBytes, h]; rfl
        have e2 : decode_next (freshDecoder (1 :: 126 :: 0 :: 126 :: p)) =
            stepExt2 ⟨0 :: 126 :: p, .ReadingExtendedPayloadLength2, false, 126, 1, false⟩ := by rfl
        have e3 := stepExt2_cons 0 126 p .ReadingExtendedPayloadLength2 false 126 1 false
        have e4 : fromBeBytes [0, 126] = 126 := by rfl
        have e5 := stepPayload_Text p .ReadingPayload false 126 false h.symm
        have e6 : reencode (WebsocketFrame.Text false p) = frameBytes false 1 (some p) := by rfl
        rw [h, e1]
        simp only [decodeReencode]
        rw [e2, e3, e4, e5]
        show some (reencode (WebsocketFrame.Text false p)) = _
        rw [e6]
        simp only [frameBytes]
        rw [h]
        rfl
      · -- payload length 127
        have e1 : serverFrameBytes false 1 p = 1 :: 126 :: 0 :: 127 :: p := by
          simp only [serverFrameBytes, h]; rfl
        have e2 : decode_next (freshDecoder (1 :: 126 :: 0 :: 127 :: p)) =
            stepExt2 ⟨0 :: 127 :: p, .ReadingExtendedPayloadLength2, false, 126, 1, false⟩ := by rfl
        have e3 := stepExt2_cons 0 127 p .ReadingExtendedPayloadLength2 false 126 1 false
        have e4 : fromBeBytes [0, 127] = 127 := by rfl
        have e5 := stepPayload_Text p .ReadingPayload false 127 false h.symm
        have e6 : reencode (WebsocketFrame.Text false p) = frameBytes false 1 (some p) := by rfl
        rw [h, e1]
        simp only [decodeReencode]
        rw [e2, e3, e4, e5]
        show some (reencode (WebsocketFrame.Text false p)) = _
        rw [e6]
        simp only [frameBytes]
        rw [h]
        rfl
      · -- payload length 65535
        have e1 : serverFrameBytes false 1 p = 1 :: 126 :: 255 :: 255 :: p := by
          simp only [serverFrameBytes, h]; rfl
        have e2 : decode_next (freshDecoder (1 :: 126 :: 255 :: 255 :: p)) =
            stepExt2 ⟨255 :: 255 :: p, .ReadingExtendedPayloadLength2, false, 126, 1, false⟩ := by rfl
        have e3 := stepExt2_cons 255 255 p .ReadingExtendedPayloadLength2 false 126 1 false
        have e4 : fromBeBytes [255, 255] = 65535 := by rfl
        have e5 := stepPayload_Text p .ReadingPayload false 65535 false h.symm
        have e6 : reencode (WebsocketFrame.Text false p) = frameBytes false 1 (some p) := by rfl
        rw [h, e1]
        simp only [decodeReencode]
        rw [e2, e3, e4, e5]
        show some (reencode (WebsocketFrame.Text false p)) = _
        rw [e6]
        simp only [frameBytes]
        rw [h]
        rfl
      · -- payload length 65536
        have e1 : serverFrameBytes false 1 p = 1 :: 127 :: 0 :: 0 :: 0 :: 0 :: 0 :: 1 :: 0 :: 0 :: p := by
          simp only [serverFrameBytes, h]; rfl
        have e2 : decode_next (freshDecoder (1 :: 127 :: 0 :: 0 :: 0 :: 0 :: 0 :: 1 :: 0 :: 0 :: p)) =
            stepExt8 ⟨0 :: 0 :: 0 :: 0 :: 0 :: 1 :: 0 :: 0 :: p, .ReadingExtendedPayloadLength8, false, 127, 1, false⟩ := by rfl
        have e3 := stepExt8_cons 0 0 0 0 0 1 0 0 p .ReadingExtendedPayloadLength8 false 127 1 false
        have e4 : fromBeBytes [0, 0, 0, 0, 0, 1, 0, 0] = 65536 := by rfl
        have e5 := stepPayload_Text p .ReadingPayload false 65536 false h.symm
        have e6 : reencode (WebsocketFrame.Text false p) = frameBytes false 1 (some p) := by rfl
        rw [h, e1]
        simp only [decodeReencode]
        rw [e2, e3, e4, e5]
        show some (reencode (WebsocketFrame.Text false p)) = _
        rw [e6]
        simp only [frameBytes]
        rw [h]
        rfl
      · -- payload length 10000000
        have e1 : serverFrameBytes false 1 p = 1 :: 127 :: 0 :: 0 :: 0 :: 0 :: 0 :: 152 :: 150 :: 128 :: p := by
          simp only [serverFrameBytes, h]; rfl
        have e2 : decode_next (freshDecoder (1 :: 127 :: 0 :: 0 :: 0 :: 0 :: 0 :: 152 :: 150 :: 128 :: p)) =
            stepExt8 ⟨0 :: 0 :: 0 :: 0 :: 0 :: 152 :: 150 :: 128 :: p, .ReadingExtendedPayloadLength8, false, 127, 1, false⟩ := by rfl
        have e3 := stepExt8_cons 0 0 0 0 0 152 150 128 p .ReadingExtendedPayloadLength8 false 127 1 false
        have e4 : fromBeBytes [0, 0, 0, 0, 0, 152, 150, 128] = 10000000 := by rfl
        have e5 := stepPayload_Text p .ReadingPayload false 10000000 false h.symm
        have e6 : reencode (WebsocketFrame.Text false p) = frameBytes false 1 (some p) := by rfl
        rw [h, e1]
        simp only [decodeReencode]
        rw [e2, e3, e4, e5]
        show some (reencode (WebsocketFrame.Text false p)) = _
        rw [e6]
        simp only [frameBytes]
        rw [h]
        rfl
    · -- fin = true
      rcases hlen with h | h | h | h | h | h | h | h
      · -- payload length 0
        have e1 : serverFrameBytes true 1 p = 129 :: 0 :: p := by
          simp only [serverFrameBytes, h]; rfl
        have e2 : decode_next (freshDecoder (129 :: 0 :: p)) =
            stepPayload ⟨p, .ReadingPayload, true, 0, 1, false⟩ := by rfl
        have e5 := stepPayload_Text p .ReadingPayload true 0 false h.symm
        have e6 : reencode (WebsocketFrame.Text true p) = frameBytes true 1 (some p) := by rfl
        rw [h, e1]
        simp only [decodeReencode]
        rw [e2, e5]
        show some (reencode (WebsocketFrame.Text true p)) = _
        rw [e6]
        simp only [frameBytes]
        rw [h]
        rfl
      · -- payload length 1
        have e1 : serverFrameBytes true 1 p = 129 :: 1 :: p := by
          simp only [serverFrameBytes, h]; rfl
        have e2 : decode_next (freshDecoder (129 :: 1 :: p)) =
            stepPayload ⟨p, .ReadingPayload, true, 1, 1, false⟩ := by rfl
        have e5 := stepPayload_Text p .ReadingPayload true 1 false h.symm
        have e6 : reencode (WebsocketFrame.Text true p) = frameBytes true 1 (some p) := by rfl
        rw [h, e1]
        simp only [decodeReencode]
        rw [e2, e5]
        show some (reencode (WebsocketFrame.Text true p)) = _
        rw [e6]
        simp only [frameBytes]
        rw [h]
        rfl
      · -- payload length 125
        have e1 : serverFrameBytes true 1 p = 129 :: 125 :: p := by
          simp only [serverFrameBytes, h]; rfl
        have e2 : decode_next (freshDecoder (129 :: 125 :: p)) =
            stepPayload ⟨p, .ReadingPayload, true, 125, 1, false⟩ := by rfl
        have e5 := stepPayload_Text p .ReadingPayload true 125 false h.symm
        have e6 : reencode (WebsocketFrame.Text true p) = frameBytes true 1 (some p) := by rfl
        rw [h, e1]
        simp only [decodeReencode]
        rw [e2, e5]
        show some (reencode (WebsocketFrame.Text true p)) = _
        rw [e6]
        simp only [frameBytes]
        rw [h]
        rfl
      · -- payload length 126
        have e1 : serverFrameBytes true 1 p = 129 :: 126 :: 0 :: 126 :: p := by
          simp only [serverFrameBytes, h]; rfl
        have e2 : decode_next (freshDecoder (129 :: 126 :: 0 :: 126 :: p)) =
            stepExt2 ⟨0 :: 126 :: p, .ReadingExtendedPayloadLength2, true, 126, 1, false⟩ := by rfl
        have e3 := stepExt2_cons 0 126 p .ReadingExtendedPayloadLength2 true 126 1 false
        have e4 : fromBeBytes [0, 126] = 126 := by rfl
        have e5 := stepPayload_Text p .ReadingPayload true 126 false h.symm
        have e6 : reencode (WebsocketFrame.Text true p) = frameBytes true 1 (some p) := by rfl
        rw [h, e1]
        simp only [decodeReencode]
        rw [e2, e3, e4, e5]
        show some (reencode (WebsocketFrame.Text true p)) = _
        rw [e6]
        simp only [frameBytes]
        rw [h]
        rfl
      · -- payload length 127
        have e1 : serverFrameBytes true 1 p = 129 :: 126 :: 0 :: 127 :: p := by
          simp only [serverFrameBytes, h]; rfl
        have e2 : decode_next (freshDecoder (129 :: 126 :: 0 :: 127 :: p)) =
            stepExt2 ⟨0 :: 127 :: p, .ReadingExtendedPayloadLength2, true, 126, 1, false⟩ := by rfl
        have e3 := stepExt2_cons 0 127 p .ReadingExtendedPayloadLength2 true 126 1 false
        have e4 : fromBeBytes [0, 127] = 127 := by rfl
        have e5 := stepPayload_Text p .ReadingPayload true 127 false h.symm
        have e6 : reencode (WebsocketFrame.Text true p) = frameBytes true 1 (some p) := by rfl
        rw [h, e1]
        simp only [decodeReencode]
        rw [e2, e3, e4, e5]
        show some (reencode (WebsocketFrame.Text true p)) = _
        rw [e6]
        simp only [frameBytes]
        rw [h]
        rfl
      · -- payload length 65535
        have e1 : serverFrameBytes true 1 p = 129 :: 126 :: 255 :: 255 :: p := by
          simp only [serverFrameBytes, h]; rfl
        have e2 : decode_next (freshDecoder (129 :: 126 :: 255 :: 255 :: p)) =
            stepExt2 ⟨255 :: 255 :: p, .ReadingExtendedPayloadLength2, true, 126, 1, false⟩ := by rfl
        have e3 := stepExt2_cons 255 255 p .ReadingExtendedPayloadLength2 true 126 1 false
        have e4 : fromBeBytes [255, 255] = 65535 := by rfl
        have e5 := stepPayload_Text p .ReadingPayload true 65535 false h.symm
        have e6 : reencode (WebsocketFrame.Text true p) = frameBytes true 1 (some p) := by rfl
        rw [h, e1]
        simp only [decodeReencode]
        rw [e2, e3, e4, e5]
        show some (reencode (WebsocketFrame.Text true p)) = _
        rw [e6]
        simp only [frameBytes]
        rw [h]
        rfl
      · -- payload length 65536
        have e1 : serverFrameBytes true 1 p = 129 :: 127 :: 0 :: 0 :: 0 :: 0 :: 0 :: 1 :: 0 :: 0 :: p := by
          simp only [serverFrameBytes, h]; rfl
        have e2 : decode_next (freshDecoder (129 :: 127 :: 0 :: 0 :: 0 :: 0 :: 0 :: 1 :: 0 :: 0 :: p)) =
            stepExt8 ⟨0 :: 0 :: 0 :: 0 :: 0 :: 1 :: 0 :: 0 :: p, .ReadingExtendedPayloadLength8, true, 127, 1, false⟩ := by rfl
        have e3 := stepExt8_cons 0 0 0 0 0 1 0 0 p .ReadingExtendedPayloadLength8 true 127 1 false
        have e4 : fromBeBytes [0, 0, 0, 0, 0, 1, 0, 0] = 65536 := by rfl
        have e5 := stepPayload_Text p .ReadingPayload true 65536 false h.symm
        have e6 : reencode (WebsocketFrame.Text true p) = frameBytes true 1 (some p) := by rfl
        rw [h, e1]
        simp only [decodeReencode]
        rw [e2, e3, e4, e5]
        show some (reencode (WebsocketFrame.Text true p)) = _
        rw [e6]
        simp only [frameBytes]
        rw [h]
        rfl
      · -- payload length 10000000
        have e1 : serverFrameBytes true 1 p = 129 :: 127 :: 0 :: 0 :: 0 :: 0 :: 0 :: 152 :: 150 :: 128 :: p := by
          simp only [serverFrameBytes, h]; rfl
        have e2 : decode_next (freshDecoder (129 :: 127 :: 0 :: 0 :: 0 :: 0 :: 0 :: 152 :: 150 :: 128 :: p)) =
            stepExt8 ⟨0 :: 0 :: 0 :: 0 :: 0 :: 152 :: 150 :: 128 :: p, .ReadingExtendedPayloadLength8, true, 127, 1, false⟩ := by rfl
        have e3 := stepExt8_cons 0 0 0 0 0 152 150 128 p .ReadingExtendedPayloadLength8 true 127 1 false
        have e4 : fromBeBytes [0, 0, 0, 0, 0, 152, 150, 128] = 10000000 := by rfl
        have e5 := stepPayload_Text p .ReadingPayload true 10000000 false h.symm
        have e6 : reencode (WebsocketFrame.Text true p) = frameBytes true 1 (some p) := by rfl
        rw [h, e1]
        simp only [decodeReencode]
        rw [e2, e3, e4, e5]
        show some (reencode (WebsocketFrame.Text true p)) = _
        rw [e6]
        simp only [frameBytes]
        rw [h]
        rfl
  · -- opcode 0x2 (Binary)
    cases fin
    · -- fin = false
      rcases hlen with h | h | h | h | h | h | h | h
      · -- payload length 0
        have e1 : serverFrameBytes false 2 p = 2 :: 0 :: p := by
          simp only [serverFrameBytes, h]; rfl
        have e2 : decode_next (freshDecoder (2 :: 0 :: p)) =
            stepPayload ⟨p, .ReadingPayload, false, 0, 2, false⟩ := by rfl
        have e5 := stepPayload_Binary p .ReadingPayload false 0 false h.symm
        have e6 : reencode (WebsocketFrame.Binary false p) = frameBytes false 2 (some p) := by rfl
        rw [h, e1]
        simp only [decodeReencode]
        rw [e2, e5]
        show some (reencode (WebsocketFrame.Binary false p)) = _
        rw [e6]
        simp only [frameBytes]
        rw [h]
        rfl
      · -- payload length 1
        have e1 : serverFrameBytes false 2 p = 2 :: 1 :: p := by
          simp only [serverFrameBytes, h]; rfl
        have e2 : decode_next (freshDecoder (2 :: 1 :: p)) =
            stepPayload ⟨p, .ReadingPayload, false, 1, 2, false⟩ := by rfl
        have e5 := stepPayload_Binary p .ReadingPayload false 1 false h.symm
        have e6 : reencode (WebsocketFrame.Binary false p) = frameBytes false 2 (some p) := by rfl
        rw [h, e1]
        simp only [decodeReencode]
        rw [e2, e5]
        show some (reencode (WebsocketFrame.Binary false p)) = _
        rw [e6]
        simp only [frameBytes]
        rw [h]
        rfl
      · -- payload length 125
        have e1 : serverFrameBytes false 2 p = 2 :: 125 :: p := by
          simp only [serverFrameBytes, h]; rfl
        have e2 : decode_next (freshDecoder (2 :: 125 :: p)) =
            stepPayload ⟨p, .ReadingPayload, false, 125, 2, false⟩ := by rfl
        have e5 := stepPayload_Binary p .ReadingPayload false 125 false h.symm
        have e6 : reencode (WebsocketFrame.Binary false p) = frameBytes false 2 (some p) := by rfl
        rw [h, e1]
        simp only [decodeReencode]
        rw [e2, e5]
        show some (reencode (WebsocketFrame.Binary false p)) = _
        rw [e6]
        simp only [frameBytes]
        rw [h]
        rfl
      · -- payload length 126
        have e1 : serverFrameBytes false 2 p = 2 :: 126 :: 0 :: 126 :: p := by
          simp only [serverFrameBytes, h]; rfl
        have e2 : decode_next (freshDecoder (2 :: 126 :: 0 :: 126 :: p)) =
            stepExt2 ⟨0 :: 126 :: p, .ReadingExtendedPayloadLength2, false, 126, 2, false⟩ := by rfl
        have e3 := stepExt2_cons 0 126 p .ReadingExtendedPayloadLength2 false 126 2 false
        have e4 : fromBeBytes [0, 126] = 126 := by rfl
        have e5 := stepPayload_Binary p .ReadingPayload false 126 false h.symm
        have e6 : reencode (WebsocketFrame.Binary false p) = frameBytes false 2 (some p) := by rfl
        rw [h, e1]
        simp only [decodeReencode]
        rw [e2, e3, e4, e5]
        show some (reencode (WebsocketFrame.Binary false p)) = _
        rw [e6]
        simp only [frameBytes]
        rw [h]
        rfl
      · -- payload length 127
        have e1 : serverFrameBytes false 2 p = 2 :: 126 :: 0 :: 127 :: p := by
          simp only [serverFrameBytes, h]; rfl
        have e2 : decode_next (freshDecoder (2 :: 126 :: 0 :: 127 :: p)) =
            stepExt2 ⟨0 :: 127 :: p, .ReadingExtendedPayloadLength2, false, 126, 2, false⟩ := by rfl
        have e3 := stepExt2_cons 0 127 p .ReadingExtendedPayloadLength2 false 126 2 false
        have e4 : fromBeBytes [0, 127] = 127 := by rfl
        have e5 := stepPayload_Binary p .ReadingPayload false 127 false h.symm
        have e6 : reencode (WebsocketFrame.Binary false p) = frameBytes false 2 (some p) := by rfl
        rw [h, e1]
        simp only [decodeReencode]
        rw [e2, e3, e4, e5]
        show some (reencode (WebsocketFrame.Binary false p)) = _
        rw [e6]
        simp only [frameBytes]
        rw [h]
        rfl
      · -- payload length 65535
        have e1 : serverFrameBytes false 2 p = 2 :: 126 :: 255 :: 255 :: p := by
          simp only [serverFrameBytes, h]; rfl
        have e2 : decode_next (freshDecoder (2 :: 126 :: 255 :: 255 :: p)) =
            stepExt2 ⟨255 :: 255 :: p, .ReadingExtendedPayloadLength2, false, 126, 2, false⟩ := by rfl
        have e3 := stepExt2_cons 255 255 p .ReadingExtendedPayloadLength2 false 126 2 false
        have e4 : fromBeBytes [255, 255] = 65535 := by rfl
        have e5 := stepPayload_Binary p .ReadingPayload false 65535 false h.symm
        have e6 : reencode (WebsocketFrame.Binary false p) = frameBytes false 2 (some p) := by rfl
        rw [h, e1]
        simp only [decodeReencode]
        rw [e2, e3, e4, e5]
        show some (reencode (WebsocketFrame.Binary false p)) = _
        rw [e6]
        simp only [frameBytes]
        rw [h]
        rfl
      · -- payload length 65536
        have e1 : serverFrameBytes false 2 p = 2 :: 127 :: 0 :: 0 :: 0 :: 0 :: 0 :: 1 :: 0 :: 0 :: p := by
          simp only [serverFrameBytes, h]; rfl
        have e2 : decode_next (freshDecoder (2 :: 127 :: 0 :: 0 :: 0 :: 0 :: 0 :: 1 :: 0 :: 0 :: p)) =
            stepExt8 ⟨0 :: 0 :: 0 :: 0 :: 0 :: 1 :: 0 :: 0 :: p, .ReadingExtendedPayloadLength8, false, 127, 2, false⟩ := by rfl
        have e3 := stepExt8_cons 0 0 0 0 0 1 0 0 p .ReadingExtendedPayloadLength8 false 127 2 false
        have e4 : fromBeBytes [0, 0, 0, 0, 0, 1, 0, 0] = 65536 := by rfl
        have e5 := stepPayload_Binary p .ReadingPayload false 65536 false h.symm
        have e6 : reencode (WebsocketFrame.Binary false p) = frameBytes false 2 (some p) := by rfl
        rw [h, e1]
        simp only [decodeReencode]
        rw [e2, e3, e4, e5]
        show some (reencode (WebsocketFrame.Binary false p)) = _
        rw [e6]
        simp only [frameBytes]
        rw [h]
        rfl
      · -- payload length 10000000
        have e1 : serverFrameBytes false 2 p = 2 :: 127 :: 0 :: 0 :: 0 :: 0 :: 0 :: 152 :: 150 :: 128 :: p := by
          simp only [serverFrameBytes, h]; rfl
        have e2 : decode_next (freshDecoder (2 :: 127 :: 0 :: 0 :: 0 :: 0 :: 0 :: 152 :: 150 :: 128 :: p)) =
            stepExt8 ⟨0 :: 0 :: 0 :: 0 :: 0 :: 152 :: 150 :: 128 :: p, .ReadingExtendedPayloadLength8, false, 127, 2, false⟩ := by rfl
        have e3 := stepExt8_cons 0 0 0 0 0 152 150 128 p .ReadingExtendedPayloadLength8 false 127 2 false
        have e4 : fromBeBytes [0, 0, 0, 0, 0, 152, 150, 128] = 10000000 := by rfl
        have e5 := stepPayload_Binary p .ReadingPayload false 10000000 false h.symm
        have e6 : reencode (WebsocketFrame.Binary false p) = frameBytes false 2 (some p) := by rfl
        rw [h, e1]
        simp only [decodeReencode]
        rw [e2, e3, e4, e5]
        show some (reencode (WebsocketFrame.Binary false p)) = _
        rw [e6]
        simp only [frameBytes]
        rw [h]
        rfl
    · -- fin = true
      rcases hlen with h | h | h | h | h | h | h | h
      · -- payload length 0
        have e1 : serverFrameBytes true 2 p = 130 :: 0 :: p := by
          simp only [serverFrameBytes, h]; rfl
        have e2 : decode_next (freshDecoder (130 :: 0 :: p)) =
            stepPayload ⟨p, .ReadingPayload, true, 0, 2, false⟩ := by rfl
        have e5 := stepPayload_Binary p .ReadingPayload true 0 false h.symm
        have e6 : reencode (WebsocketFrame.Binary true p) = frameBytes true 2 (some p) := by rfl
        rw [h, e1]
        simp only [decodeReencode]
        rw [e2, e5]
        show some (reencode (WebsocketFrame.Binary true p)) = _
        rw [e6]
        simp only [frameBytes]
        rw [h]
        rfl
      · -- payload length 1
        have e1 : serverFrameBytes true 2 p = 130 :: 1 :: p := by
          simp only [serverFrameBytes, h]; rfl
        have e2 : decode_next (freshDecoder (130 :: 1 :: p)) =
            stepPayload ⟨p, .ReadingPayload, true, 1, 2, false⟩ := by rfl
        have e5 := stepPayload_Binary p .ReadingPayload true 1 false h.symm
        have e6 : reencode (WebsocketFrame.Binary true p) = frameBytes true 2 (some p) := by rfl
        rw [h, e1]
        simp only [decodeReencode]
        rw [e2, e5]
        show some (reencode (WebsocketFrame.Binary true p)) = _
        rw [e6]
        simp only [frameBytes]
        rw [h]
        rfl
      · -- payload length 125
        have e1 : serverFrameBytes true 2 p = 130 :: 125 :: p := by
          simp only [serverFrameBytes, h]; rfl
        have e2 : decode_next (freshDecoder (130 :: 125 :: p)) =
            stepPayload ⟨p, .ReadingPayload, true, 125, 2, false⟩ := by rfl
        have e5 := stepPayload_Binary p .ReadingPayload true 125 false h.symm
        have e6 : reencode (WebsocketFrame.Binary true p) = frameBytes true 2 (some p) := by rfl
        rw [h, e1]
        simp only [decodeReencode]
        rw [e2, e5]
        show some (reencode (WebsocketFrame.Binary true p)) = _
        rw [e6]
        simp only [frameBytes]
        rw [h]
        rfl
      · -- payload length 126
        have e1 : serverFrameBytes true 2 p = 130 :: 126 :: 0 :: 126 :: p := by
          simp only [serverFrameBytes, h]; rfl
        have e2 : decode_next (freshDecoder (130 :: 126 :: 0 :: 126 :: p)) =
            stepExt2 ⟨0 :: 126 :: p, .ReadingExtendedPayloadLength2, true, 126, 2, false⟩ := by rfl
        have e3 := stepExt2_cons 0 126 p .ReadingExtendedPayloadLength2 true 126 2 false
        have e4 : fromBeBytes [0, 126] = 126 := by rfl
        have e5 := stepPayload_Binary p .ReadingPayload true 126 false h.symm
        have e6 : reencode (WebsocketFrame.Binary true p) = frameBytes true 2 (some p) := by rfl
        rw [h, e1]
        simp only [decodeReencode]
        rw [e2, e3, e4, e5]
        show some (reencode (WebsocketFrame.Binary true p)) = _
        rw [e6]
        simp only [frameBytes]
        rw [h]
        rfl
      · -- payload length 127
        have e1 : serverFrameBytes true 2 p = 130 :: 126 :: 0 :: 127 :: p := by
          simp only [serverFrameBytes, h]; rfl
        have e2 : decode_next (freshDecoder (130 :: 126 :: 0 :: 127 :: p)) =
            stepExt2 ⟨0 :: 127 :: p, .ReadingExtendedPayloadLength2, true, 126, 2, false⟩ := by rfl
        have e3 := stepExt2_cons 0 127 p .ReadingExtendedPayloadLength2 true 126 2 false
        have e4 : fromBeBytes [0, 127] = 127 := by rfl
        have e5 := stepPayload_Binary p .ReadingPayload true 127 false h.symm
        have e6 : reencode (WebsocketFrame.Binary true p) = frameBytes true 2 (some p) := by rfl
        rw [h, e1]
        simp only [decodeReencode]
        rw [e2, e3, e4, e5]
        show some (reencode (WebsocketFrame.Binary true p)) = _
        rw [e6]
        simp only [frameBytes]
        rw [h]
        rfl
      · -- payload length 65535
        have e1 : serverFrameBytes true 2 p = 130 :: 126 :: 255 :: 255 :: p := by
          simp only [serverFrameBytes, h]; rfl
        have e2 : decode_next (freshDecoder (130 :: 126 :: 255 :: 255 :: p)) =
            stepExt2 ⟨255 :: 255 :: p, .ReadingExtendedPayloadLength2, true, 126, 2, false⟩ := by rfl
        have e3 := stepExt2_cons 255 255 p .ReadingExtendedPayloadLength2 true 126 2 false
        have e4 : fromBeBytes [255, 255] = 65535 := by rfl
        have e5 := stepPayload_Binary p .ReadingPayload true 65535 false h.symm
        have e6 : reencode (WebsocketFrame.Binary true p) = frameBytes true 2 (some p) := by rfl
        rw [h, e1]
        simp only [decodeReencode]
        rw [e2, e3, e4, e5]
        show some (reencode (WebsocketFrame.Binary true p)) = _
        rw [e6]
        simp only [frameBytes]
        rw [h]
        rfl
      · -- payload length 65536
        have e1 : serverFrameBytes true 2 p = 130 :: 127 :: 0 :: 0 :: 0 :: 0 :: 0 :: 1 :: 0 :: 0 :: p := by
          simp only [serverFrameBytes, h]; rfl
        have e2 : decode_next (freshDecoder (130 :: 127 :: 0 :: 0 :: 0 :: 0 :: 0 :: 1 :: 0 :: 0 :: p)) =
            stepExt8 ⟨0 :: 0 :: 0 :: 0 :: 0 :: 1 :: 0 :: 0 :: p, .ReadingExtendedPayloadLength8, true, 127, 2, false⟩ := by rfl
        have e3 := stepExt8_cons 0 0 0 0 0 1 0 0 p .ReadingExtendedPayloadLength8 true 127 2 false
        have e4 : fromBeBytes [0, 0, 0, 0, 0, 1, 0, 0] = 65536 := by rfl
        have e5 := stepPayload_Binary p .ReadingPayload true 65536 false h.symm
        have e6 : reencode (WebsocketFrame.Binary true p) = frameBytes true 2 (some p) := by rfl
        rw [h, e1]
        simp only [decodeReencode]
        rw [e2, e3, e4, e5]
        show some (reencode (WebsocketFrame.Binary true p)) = _
        rw [e6]
        simp only [frameBytes]
        rw [h]
        rfl
      · -- payload length 10000000
        have e1 : serverFrameBytes true 2 p = 130 :: 127 :: 0 :: 0 :: 0 :: 0 :: 0 :: 152 :: 150 :: 128 :: p := by
          simp only [serverFrameBytes, h]; rfl
        have e2 : decode_next (freshDecoder (130 :: 127 :: 0 :: 0 :: 0 :: 0 :: 0 :: 152 :: 150 :: 128 :: p)) =
            stepExt8 ⟨0 :: 0 :: 0 :: 0 :: 0 :: 152 :: 150 :: 128 :: p, .ReadingExtendedPayloadLength8, true, 127, 2, false⟩ := by rfl
        have e3 := stepExt8_cons 0 0 0 0 0 152 150 128 p .ReadingExtendedPayloadLength8 true 127 2 false
        have e4 : fromBeBytes [0, 0, 0, 0, 0, 152, 150, 128] = 10000000 := by rfl
        have e5 := stepPayload_Binary p .ReadingPayload true 10000000 false h.symm
        have e6 : reencode (WebsocketFrame.Binary true p) = frameBytes true 2 (some p) := by rfl
        rw [h, e1]
        simp only [decodeReencode]
        rw [e2, e3, e4, e5]
        show some (reencode (WebsocketFrame.Binary true p)) = _
        rw [e6]
        simp only [frameBytes]
        rw [h]
        rfl
  · -- opcode 0x8 (Close); fin forced to true
    have hf := hctl (Or.inl rfl)
    subst hf
    rcases hlen with h | h | h | h | h | h | h | h
    · -- payload length 0
      have e1 : serverFrameBytes true 8 p = 136 :: 0 :: p := by
        simp only [serverFrameBytes, h]; rfl
      have e2 : decode_next (freshDecoder (136 :: 0 :: p)) =
          stepPayload ⟨p, .ReadingPayload, true, 0, 8, false⟩ := by rfl
      have e5 := stepPayload_Close p .ReadingPayload true 0 false h.symm
      have e6 : reencode (WebsocketFrame.Close p) = frameBytes true 8 (some p) := by rfl
      rw [h, e1]
      simp only [decodeReencode]
      rw [e2, e5]
      show some (reencode (WebsocketFrame.Close p)) = _
      rw [e6]
      simp only [frameBytes]
      rw [h]
      rfl
    · -- payload length 1
      have e1 : serverFrameBytes true 8 p = 136 :: 1 :: p := by
        simp only [serverFrameBytes, h]; rfl
      have e2 : decode_next (freshDecoder (136 :: 1 :: p)) =
          stepPayload ⟨p, .ReadingPayload, true, 1, 8, false⟩ := by rfl
      have e5 := stepPayload_Close p .ReadingPayload true 1 false h.symm
      have e6 : reencode (WebsocketFrame.Close p) = frameBytes true 8 (some p) := by rfl
      rw [h, e1]
      simp only [decodeReencode]
      rw [e2, e5]
      show some (reencode (WebsocketFrame.Close p)) = _
      rw [e6]
      simp only [frameBytes]
      rw [h]
      rfl
    · -- payload length 125
      have e1 : serverFrameBytes true 8 p = 136 :: 125 :: p := by
        simp only [serverFrameBytes, h]; rfl
      have e2 : decode_next (freshDecoder (136 :: 125 :: p)) =
          stepPayload ⟨p, .ReadingPayload, true, 125, 8, false⟩ := by rfl
      have e5 := stepPayload_Close p .ReadingPayload true 125 false h.symm
      have e6 : reencode (WebsocketFrame.Close p) = frameBytes true 8 (some p) := by rfl
      rw [h, e1]
      simp only [decodeReencode]
      rw [e2, e5]
      show some (reencode (WebsocketFrame.Close p)) = _
      rw [e6]
      simp only [frameBytes]
      rw [h]
      rfl
    · -- payload length 126
      have e1 : serverFrameBytes true 8 p = 136 :: 126 :: 0 :: 126 :: p := by
        simp only [serverFrameBytes, h]; rfl
      have e2 : decode_next (freshDecoder (136 :: 126 :: 0 :: 126 :: p)) =
          stepExt2 ⟨0 :: 126 :: p, .ReadingExtendedPayloadLength2, true, 126, 8, false⟩ := by rfl
      have e3 := stepExt2_cons 0 126 p .ReadingExtendedPayloadLength2 true 126 8 false
      have e4 : fromBeBytes [0, 126] = 126 := by rfl
      have e5 := stepPayload_Close p .ReadingPayload true 126 false h.symm
      have e6 : reencode (WebsocketFrame.Close p) = frameBytes true 8 (some p) := by rfl
      rw [h, e1]
      simp only [decodeReencode]
      rw [e2, e3, e4, e5]
      show some (reencode (WebsocketFrame.Close p)) = _
      rw [e6]
      simp only [frameBytes]
      rw [h]
      rfl
    · -- payload length 127
      have e1 : serverFrameBytes true 8 p = 136 :: 126 :: 0 :: 127 :: p := by
        simp only [serverFrameBytes, h]; rfl
      have e2 : decode_next (freshDecoder (136 :: 126 :: 0 :: 127 :: p)) =
          stepExt2 ⟨0 :: 127 :: p, .ReadingExtendedPayloadLength2, true, 126, 8, false⟩ := by rfl
      have e3 := stepExt2_cons 0 127 p .ReadingExtendedPayloadLength2 true 126 8 false
      have e4 : fromBeBytes [0, 127] = 127 := by rfl
      have e5 := stepPayload_Close p .ReadingPayload true 127 false h.symm
      have e6 : reencode (WebsocketFrame.Close p) = frameBytes true 8 (some p) := by rfl
      rw [h, e1]
      simp only [decodeReencode]
      rw [e2, e3, e4, e5]
      show some (reencode (WebsocketFrame.Close p)) = _
      rw [e6]
      simp only [frameBytes]
      rw [h]
      rfl
    · -- payload length 65535
      have e1 : serverFrameBytes true 8 p = 136 :: 126 :: 255 :: 255 :: p := by
        simp only [serverFrameBytes, h]; rfl
      have e2 : decode_next (freshDecoder (136 :: 126 :: 255 :: 255 :: p)) =
          stepExt2 ⟨255 :: 255 :: p, .ReadingExtendedPayloadLength2, true, 126, 8, false⟩ := by rfl
      have e3 := stepExt2_cons 255 255 p .ReadingExtendedPayloadLength2 true 126 8 false
      have e4 : fromBeBytes [255, 255] = 65535 := by rfl
      have e5 := stepPayload_Close p .ReadingPayload true 65535 false h.symm
      have e6 : reencode (WebsocketFrame.Close p) = frameBytes true 8 (some p) := by rfl
      rw [h, e1]
      simp only [decodeReencode]
      rw [e2, e3, e4, e5]
      show some (reencode (WebsocketFrame.Close p)) = _
      rw [e6]
      simp only [frameBytes]
      rw [h]
      rfl
    · -- payload length 65536
      have e1 : serverFrameBytes true 8 p = 136 :: 127 :: 0 :: 0 :: 0 :: 0 :: 0 :: 1 :: 0 :: 0 :: p := by
        simp only [serverFrameBytes, h]; rfl
      have e2 : decode_next (freshDecoder (136 :: 127 :: 0 :: 0 :: 0 :: 0 :: 0 :: 1 :: 0 :: 0 :: p)) =
          stepExt8 ⟨0 :: 0 :: 0 :: 0 :: 0 :: 1 :: 0 :: 0 :: p, .ReadingExtendedPayloadLength8, true, 127, 8, false⟩ := by rfl
      have e3 := stepExt8_cons 0 0 0 0 0 1 0 0 p .ReadingExtendedPayloadLength8 true 127 8 false
      have e4 : fromBeBytes [0, 0, 0, 0, 0, 1, 0, 0] = 65536 := by rfl
      have e5 := stepPayload_Close p .ReadingPayload true 65536 false h.symm
      have e6 : reencode (WebsocketFrame.Close p) = frameBytes true 8 (some p) := by rfl
      rw [h, e1]
      simp only [decodeReencode]
      rw [e2, e3, e4, e5]
      show some (reencode (WebsocketFrame.Close p)) = _
      rw [e6]
      simp only [frameBytes]
      rw [h]
      rfl
    · -- payload length 10000000
      have e1 : serverFrameBytes true 8 p = 136 :: 127 :: 0 :: 0 :: 0 :: 0 :: 0 :: 152 :: 150 :: 128 :: p := by
        simp only [serverFrameBytes, h]; rfl
      have e2 : decode_next (freshDecoder (136 :: 127 :: 0 :: 0 :: 0 :: 0 :: 0 :: 152 :: 150 :: 128 :: p)) =
          stepExt8 ⟨0 :: 0 :: 0 :: 0 :: 0 :: 152 :: 150 :: 128 :: p, .ReadingExtendedPayloadLength8, true, 127, 8, false⟩ := by rfl
      have e3 := stepExt8_cons 0 0 0 0 0 152 150 128 p .ReadingExtendedPayloadLength8 true 127 8 false
      have e4 : fromBeBytes [0, 0, 0, 0, 0, 152, 150, 128] = 10000000 := by rfl
      have e5 := stepPayload_Close p .ReadingPayload true 10000000 false h.symm
      have e6 : reencode (WebsocketFrame.Close p) = frameBytes true 8 (some p) := by rfl
      rw [h, e1]
      simp only [decodeReencode]
      rw [e2, e3, e4, e5]
      show some (reencode (WebsocketFrame.Close p)) = _
      rw [e6]
      simp only [frameBytes]
      rw [h]
      rfl
  · -- opcode 0x9 (Ping); fin forced to true
    have hf := hctl (Or.inr rfl)
    subst hf
    rcases hlen with h | h | h | h | h | h | h | h
    · -- payload length 0
      have e1 : serverFrameBytes true 9 p = 137 :: 0 :: p := by
        simp only [serverFrameBytes, h]; rfl
      have e2 : decode_next (freshDecoder (137 :: 0 :: p)) =
          stepPayload ⟨p, .ReadingPayload, true, 0, 9, false⟩ := by rfl
      have e5 := stepPayload_Ping p .ReadingPayload true 0 false h.symm
      have e6 : reencode (WebsocketFrame.Ping p) = frameBytes true 9 (some p) := by rfl
      rw [h, e1]
      simp only [decodeReencode]
      rw [e2, e5]
      show some (reencode (WebsocketFrame.Ping p)) = _
      rw [e6]
      simp only [frameBytes]
      rw [h]
      rfl
    · -- payload length 1
      have e1 : serverFrameBytes true 9 p = 137 :: 1 :: p := by
        simp only [serverFrameBytes, h]; rfl
      have e2 : decode_next (freshDecoder (137 :: 1 :: p)) =
          stepPayload ⟨p, .ReadingPayload, true, 1, 9, false⟩ := by rfl
      have e5 := stepPayload_Ping p .ReadingPayload true 1 false h.symm
      have e6 : reencode (WebsocketFrame.Ping p) = frameBytes true 9 (some p) := by rfl
      rw [h, e1]
      simp only [decodeReencode]
      rw [e2, e5]
      show some (reencode (WebsocketFrame.Ping p)) = _
      rw [e6]
      simp only [frameBytes]
      rw [h]
      rfl
    · -- payload length 125
      have e1 : serverFrameBytes true 9 p = 137 :: 125 :: p := by
        simp only [serverFrameBytes, h]; rfl
      have e2 : decode_next (freshDecoder (137 :: 125 :: p)) =
          stepPayload ⟨p, .ReadingPayload, true, 125, 9, false⟩ := by rfl
      have e5 := stepPayload_Ping p .ReadingPayload true 125 false h.symm
      have e6 : reencode (WebsocketFrame.Ping p) = frameBytes true 9 (some p) := by rfl
      rw [h, e1]
      simp only [decodeReencode]
      rw [e2, e5]
      show some (reencode (WebsocketFrame.Ping p)) = _
      rw [e6]
      simp only [frameBytes]
      rw [h]
      rfl
    · -- payload length 126
      have e1 : serverFrameBytes true 9 p = 137 :: 126 :: 0 :: 126 :: p := by
        simp only [serverFrameBytes, h]; rfl
      have e2 : decode_next (freshDecoder (137 :: 126 :: 0 :: 126 :: p)) =
          stepExt2 ⟨0 :: 126 :: p, .ReadingExtendedPayloadLength2, true, 126, 9, false⟩ := by rfl
      have e3 := stepExt2_cons 0 126 p .ReadingExtendedPayloadLength2 true 126 9 false
      have e4 : fromBeBytes [0, 126] = 126 := by rfl
      have e5 := stepPayload_Ping p .ReadingPayload true 126 false h.symm
      have e6 : reencode (WebsocketFrame.Ping p) = frameBytes true 9 (some p) := by rfl
      rw [h, e1]
      simp only [decodeReencode]
      rw [e2, e3, e4, e5]
      show some (reencode (WebsocketFrame.Ping p)) = _
      rw [e6]
      simp only [frameBytes]
      rw [h]
      rfl
    · -- payload length 127
      have e1 : serverFrameBytes true 9 p = 137 :: 126 :: 0 :: 127 :: p := by
        simp only [serverFrameBytes, h]; rfl
      have e2 : decode_next (freshDecoder (137 :: 126 :: 0 :: 127 :: p)) =
          stepExt2 ⟨0 :: 127 :: p, .ReadingExtendedPayloadLength2, true, 126, 9, false⟩ := by rfl
      have e3 := stepExt2_cons 0 127 p .ReadingExtendedPayloadLength2 true 126 9 false
      have e4 : fromBeBytes [0, 127] = 127 := by rfl
      have e5 := stepPayload_Ping p .ReadingPayload true 127 false h.symm
      have e6 : reencode (WebsocketFrame.Ping p) = frameBytes true 9 (some p) := by rfl
      rw [h, e1]
      simp only [decodeReencode]
      rw [e2, e3, e4, e5]
      show some (reencode (WebsocketFrame.Ping p)) = _
      rw [e6]
      simp only [frameBytes]
      rw [h]
      rfl
    · -- payload length 65535
      have e1 : serverFrameBytes true 9 p = 137 :: 126 :: 255 :: 255 :: p := by
        simp only [serverFrameBytes, h]; rfl
      have e2 : decode_next (freshDecoder (137 :: 126 :: 255 :: 255 :: p)) =
          stepExt2 ⟨255 :: 255 :: p, .ReadingExtendedPayloadLength2, true, 126, 9, false⟩ := by rfl
      have e3 := stepExt2_cons 255 255 p .ReadingExtendedPayloadLength2 true 126 9 false
      have e4 : fromBeBytes [255, 255] = 65535 := by rfl
      have e5 := stepPayload_Ping p .ReadingPayload true 65535 false h.symm
      have e6 : reencode (WebsocketFrame.Ping p) = frameBytes true 9 (some p) := by rfl
      rw [h, e1]
      simp only [decodeReencode]
      rw [e2, e3, e4, e5]
      show some (reencode (WebsocketFrame.Ping p)) = _
      rw [e6]
      simp only [frameBytes]
      rw [h]
      rfl
    · -- payload length 65536
      have e1 : serverFrameBytes true 9 p = 137 :: 127 :: 0 :: 0 :: 0 :: 0 :: 0 :: 1 :: 0 :: 0 :: p := by
        simp only [serverFrameBytes, h]; rfl
      have e2 : decode_next (freshDecoder (137 :: 127 :: 0 :: 0 :: 0 :: 0 :: 0 :: 1 :: 0 :: 0 :: p)) =
          stepExt8 ⟨0 :: 0 :: 0 :: 0 :: 0 :: 1 :: 0 :: 0 :: p, .ReadingExtendedPayloadLength8, true, 127, 9, false⟩ := by rfl
      have e3 := stepExt8_cons 0 0 0 0 0 1 0 0 p .ReadingExtendedPayloadLength8 true 127 9 false
      have e4 : fromBeBytes [0, 0, 0, 0, 0, 1, 0, 0] = 65536 := by rfl
      have e5 := stepPayload_Ping p .ReadingPayload true 65536 false h.symm
      have e6 : reencode (WebsocketFrame.Ping p) = frameBytes true 9 (some p) := by rfl
      rw [h, e1]
      simp only [decodeReencode]
      rw [e2, e3, e4, e5]
      show some (reencode (WebsocketFrame.Ping p)) = _
      rw [e6]
      simp only [frameBytes]
      rw [h]
      rfl
    · -- payload length 10000000
      have e1 : serverFrameBytes true 9 p = 137 :: 127 :: 0 :: 0 :: 0 :: 0 :: 0 :: 152 :: 150 :: 128 :: p := by
        simp only [serverFrameBytes, h]; rfl
      have e2 : decode_next (freshDecoder (137 :: 127 :: 0 :: 0 :: 0 :: 0 :: 0 :: 152 :: 150 :: 128 :: p)) =
          stepExt8 ⟨0 :: 0 :: 0 :: 0 :: 0 :: 152 :: 150 :: 128 :: p, .ReadingExtendedPayloadLength8, true, 127, 9, false⟩ := by rfl
      have e3 := stepExt8_cons 0 0 0 0 0 152 150 128 p .ReadingExtendedPayloadLength8 true 127 9 false
      have e4 : fromBeBytes [0, 0, 0, 0, 0, 152, 150, 128] = 10000000 := by rfl
      have e5 := stepPayload_Ping p .ReadingPayload true 10000000 false h.symm
      have e6 : reencode (WebsocketFrame.Ping p) = frameBytes true 9 (some p) := by rfl
      rw [h, e1]
      simp only [decodeReencode]
      rw [e2, e3, e4, e5]
      show some (reencode (WebsocketFrame.Ping p)) = _
      rw [e6]
      simp only [frameBytes]
      rw [h]
      rfl

/-- Witness for C5: Ping "A" (wire 89 01 41) decodes and re-encodes to
89 81 00 00 00 00 41. -/
theorem c5_reencode_inserts_mask_witness :
    decodeReencode (serverFrameBytes true 0x9 [0x41]) =
      some [0x89, 0x81, 0x00, 0x00, 0x00, 0x00, 0x41] := by
  have h := c5_reencode_inserts_mask true 0x9 [0x41]
    (by decide) (fun _ => rfl) (by decide)
  rw [h]
  decide

theorem BufInv_consume_next (cs : Nat) (b : ReadBuffer) (len : Nat) (h : BufInv cs b) :
    BufInv cs (consume_next b len).1 := by
  obtain ⟨h1, h2, h3⟩ := h
  by_cases hge : b.available ≥ len
  · simp only [consume_next, if_pos hge, consume_next_unchecked]
    simp only [ReadBuffer.available] at hge
    refine ⟨?_, h2, h3⟩
    simp only []
    omega
  · simp only [consume_next, if_neg hge]
    exact ⟨h1, h2, h3⟩

theorem BufInv_consume_next_byte (cs : Nat) (b : ReadBuffer) (h : BufInv cs b) :
    BufInv cs (consume_next_byte b).1 := by
  obtain ⟨h1, h2, h3⟩ := h
  by_cases hge : b.available ≥ 1
  · simp only [consume_next_byte, if_pos hge, consume_next_byte_unchecked]
    simp only [ReadBuffer.available] at hge
    refine ⟨?_, h2, h3⟩
    simp only []
    omega
  · simp only [consume_next_byte, if_neg hge]
    exact ⟨h1, h2, h3⟩

/-- C7: after any sequence of `read_from` / `read_all_from` calls (over any
`Read` source honouring the read contract, including `WouldBlock`, short
reads, EOF and I/O errors) interleaved with checked `consume_next` /
`consume_next_byte` calls, the cursor invariant
`0 ≤ head ≤ tail ≤ capacity` holds (`0 ≤ head` is trivial over `Nat`) and
`available()` equals `tail − head`. -/
theorem c7_read_buffer_invariant (chunkSize initialCapacity : Nat) (b : ReadBuffer)
    (hreach : BufReachable chunkSize initialCapacity b) :
    b.head ≤ b.tail ∧ b.tail ≤ b.inner.length ∧ b.available = b.tail - b.head := by
  have hinv : BufInv chunkSize b := by
    induction hreach with
    | new hcs =>
      refine ⟨Nat.le_refl 0, Nat.zero_le _, ?_⟩
      simpa [ReadBuffer.new] using hcs
    | read_chunk b stream _ hs ih => exact BufInv_read_from_with_mode _ _ _ _ ih hs
    | read_all b stream _ hs ih => exact BufInv_read_from_with_mode _ _ _ _ ih hs
    | consume b len _ ih => exact BufInv_consume_next _ _ _ ih
    | consume_byte b _ ih => exact BufInv_consume_next_byte _ _ ih
  exact ⟨hinv.1, hinv.2.1, rfl⟩

/-- Witness for C7: a chunk of 16 into a 32-byte buffer whose stream reports
`WouldBlock`, followed by a checked consume, keeps the invariant. -/
theorem c7_read_buffer_invariant_witness :
    (consume_next (read_from (ReadBuffer.new 32) 16 (fun _ => ReadOutcome.wouldBlock)).1 3).1.head ≤
      (consume_next (read_from (ReadBuffer.new 32) 16 (fun _ => ReadOutcome.wouldBlock)).1 3).1.tail ∧
    (consume_next (read_from (ReadBuffer.new 32) 16 (fun _ => ReadOutcome.wouldBlock)).1 3).1.tail ≤
      (consume_next (read_from (ReadBuffer.new 32) 16 (fun _ => ReadOutcome.wouldBlock)).1 3).1.inner.length ∧
    (consume_next (read_from (ReadBuffer.new 32) 16 (fun _ => ReadOutcome.wouldBlock)).1 3).1.available =
      (consume_next (read_from (ReadBuffer.new 32) 16 (fun _ => ReadOutcome.wouldBlock)).1 3).1.tail -
      (consume_next (read_from (ReadBuffer.new 32) 16 (fun _ => ReadOutcome.wouldBlock)).1 3).1.head :=
  c7_read_buffer_invariant 16 32 _
    (BufReachable.consume _ 3
      (BufReachable.read_chunk _ _ (BufReachable.new (by decide))
        (fun n => by simp [outcomeLen])))

/-- C10: a checked `consume_next(n)` with `n` exceeding `available()`
returns `None` and leaves the buffer (head, tail and bytes) unchanged, and a
checked `consume_next_byte` on an empty buffer does the same. -/
theorem c10_consume_checked (b : ReadBuffer) (len : Nat) :
    (b.available < len → consume_next b len = (b, none)) ∧
    (b.available = 0 → consume_next_byte b = (b, none)) := by
  constructor
  · intro hlt
    unfold consume_next
    rw [if_neg (by omega)]
  · intro h0
    unfold consume_next_byte
    rw [if_neg (by omega)]

/-- Witness for C10: a fresh buffer has `available = 0`, so consuming 3
bytes or a single byte returns `None` with the buffer unchanged. -/
theorem c10_consume_checked_witness :
    consume_next (ReadBuffer.new 8) 3 = (ReadBuffer.new 8, none) ∧
    consume_next_byte (ReadBuffer.new 8) = (ReadBuffer.new 8, none) :=
  ⟨(c10_consume_checked (ReadBuffer.new 8) 3).1 (by decide),
   (c10_consume_checked (ReadBuffer.new 8) 3).2 (by decide)⟩

/-- C8 (amended): along any run of `IOService::poll` calls in which no poll
returns an error, at most one admission of a pending endpoint is initiated
within any closed 1-second window.  (The unamended claim — for all runs —
fails: an `Err` from DNS resolution or target creation propagates through
`?` before line 249 updates `next_endpoint_create_time_ns`, so the next
poll may admit another endpoint immediately; see the counterexample.) -/
theorem c8_throttle_one_per_second (s0 : ServiceState) (events : List PollEvent) (w : Nat)
    (hok : (runPolls s0 events).2.2 = false) :
    ((runPolls s0 events).2.1.countP
        (fun t => decide (w ≤ t ∧ t ≤ w + ENDPOINT_CREATION_THROTTLE_NS))) ≤ 1 :=
  pairwise_spaced_countP_le_one _ _ w (runPolls_attempt_spacing events s0 hok).2

/-- Witness for C8: two error-free polls 1.5 s apart admit one endpoint
each; no 1-second window holds more than one admission. -/
theorem c8_throttle_one_per_second_witness :
    ((runPolls ⟨[(1, 0), (2, 1500000000)], 0⟩
        [⟨1000000000, DnsPollResult.wouldBlock, CreateResult.created⟩,
         ⟨2500000000, DnsPollResult.ok [7], CreateResult.created⟩]).2.1.countP
        (fun t => decide (1000000000 ≤ t ∧
          t ≤ 1000000000 + ENDPOINT_CREATION_THROTTLE_NS))) ≤ 1 :=
  c8_throttle_one_per_second _ _ _ (by decide)

/-- C8 counterexample: with two pending endpoints, a poll at t = 6 s whose
DNS resolution fails (TimedOut — the query is 6 s old) pops the first
endpoint but the error skips the `next_endpoint_create_time_ns` update, so
a second poll 1 ns later initiates another admission: two attempts inside
one 1-second window, contradicting the claim as stated. -/
theorem c8_error_path_skips_throttle :
    (runPolls ⟨[(1, 0), (2, 6000000000)], 0⟩
        [⟨6000000000, DnsPollResult.wouldBlock, CreateResult.created⟩,
         ⟨6000000001, DnsPollResult.ok [7], CreateResult.created⟩]).2.1 =
      [6000000000, 6000000001] ∧
    ¬ ((([6000000000, 6000000001] : List Nat).countP
        (fun t => decide (6000000000 ≤ t ∧
          t ≤ 6000000000 + ENDPOINT_CREATION_THROTTLE_NS))) ≤ 1) := by
  exact ⟨rfl, by decide⟩

/-- C9 (amended): `resolve_dns` fails with `TimedOut` exactly when more
than 5 seconds have elapsed since the query was created — the deadline
check precedes `query.poll()`, so even a query whose resolved address is
already available is failed with `TimedOut` after the deadline (the
unamended claim denies this; see the counterexample) — and within the
deadline a `WouldBlock` query makes `IOService::poll` re-queue the
endpoint at the back of the pending queue without error. -/
theorem c9_dns_timeout_precedes_poll (now created nxt handleId : Nat)
    (rest : List (Nat × Nat)) (poll : DnsPollResult) (c : CreateResult)
    (hgate : nxt < now) :
    (resolve_dns now created poll = .error .timedOut ↔
      created + DNS_RESOLVE_TIMEOUT_NS < now) ∧
    (now ≤ created + DNS_RESOLVE_TIMEOUT_NS →
      pollStep ⟨(handleId, created) :: rest, nxt⟩ ⟨now, .wouldBlock, c⟩ =
        (⟨rest ++ [(handleId, created)], now + ENDPOINT_CREATION_THROTTLE_NS⟩,
          true, false)) := by
  constructor
  · constructor
    · intro hto
      by_cases hd : now > created + DNS_RESOLVE_TIMEOUT_NS
      · omega
      · exfalso
        unfold resolve_dns at hto
        rw [if_neg hd] at hto
        cases poll with
        | ok addrs =>
          cases haddr : addrs.head? with
          | some a => simp [haddr] at hto
          | none => simp [haddr] at hto
        | wouldBlock => simp at hto
        | ioError => simp at hto
    · intro hlt
      unfold resolve_dns
      rw [if_pos (by omega)]
  · intro hle
    have hd : ¬ now > created + DNS_RESOLVE_TIMEOUT_NS := by omega
    simp [pollStep, resolve_dns, hgate, hd]

/-- Witness for C9: at `now` = 1000 ns with a query created at 0, the poll
is within budget: no `TimedOut`, and a `WouldBlock` query is re-queued. -/
theorem c9_dns_timeout_precedes_poll_witness :
    (resolve_dns 1000 0 DnsPollResult.wouldBlock = .error .timedOut ↔
      0 + DNS_RESOLVE_TIMEOUT_NS < 1000) ∧
    (1000 ≤ 0 + DNS_RESOLVE_TIMEOUT_NS →
      pollStep ⟨[(5, 0)], 0⟩ ⟨1000, .wouldBlock, .created⟩ =
        (⟨[] ++ [(5, 0)], 1000 + ENDPOINT_CREATION_THROTTLE_NS⟩, true, false)) :=
  c9_dns_timeout_precedes_poll 1000 0 0 5 [] DnsPollResult.wouldBlock
    CreateResult.created (by decide)

/-- C9 counterexample: the claim states a query whose resolved address is
already available is never failed with `TimedOut`, but the deadline check
runs before `query.poll()`: at 5 s + 1 ns a ready address still yields
`TimedOut`.  Moreover at exactly 5 s elapsed the code still re-queues,
while the claim ("less than 5 seconds … otherwise TimedOut") would fail
the poll. -/
theorem c9_ready_address_times_out :
    resolve_dns 5000000001 0 (DnsPollResult.ok [7]) = .error .timedOut ∧
    resolve_dns 5000000000 0 DnsPollResult.wouldBlock = .ok none := by
  exact ⟨rfl, rfl⟩
